import Mathlib

/-!
Verification development for the video-dubbing job pipeline of the
ecomate backend.  The definitions below are a shallow embedding of
`src/modules/video-dubbing/video-dubbing.service.ts`,
`src/modules/video-dubbing/video-dubbing.processor.ts` and
`src/utils/s3/s3.service.ts`:

* Prisma records (`VideoDubbingJob`, `Product1688`) become Lean structures
  with `Option` for nullable columns; timestamps are abstract `Nat` instants.
* Engine collaborators (downloader, audio processor, whisper, tts, encoder)
  are black boxes; one execution attempt fixes each collaborator's outcome,
  so the environment supplies every outcome as an `Except String result`.
* BullMQ enqueueing is modelled by recording the queue item (name, payload,
  options such as `attempts` and backoff) that `queue.add` receives.
* `Date.now()` and `Math.random()` inside `S3Service.generateKey` are
  nondeterministic; the environment supplies them as a stream of
  (timestamp, random-string) pairs indexed by a call counter.
* NestJS exceptions become the `ServiceError` sum type; a thrown exception
  aborts the surrounding function before any later write, which the
  embedding reflects by returning `Except.error` before any effect record
  is produced.
-/

namespace Ecomate

/-- Job status enum as used by the processor/service code
(`JobStatus` from the Prisma client; only the members the sources
reference are listed — the code never assigns any other member to a job). -/
inductive JobStatus where
  | QUEUED
  | DOWNLOADING
  | EXTRACTING_AUDIO
  | SEPARATING_AUDIO
  | TRANSCRIBING
  | TRANSLATING
  | GENERATING_VOICE
  | MIXING_AUDIO
  | ENCODING_VIDEO
  | GENERATING_HLS
  | UPLOADING
  | COMPLETED
  | FAILED
deriving DecidableEq, Repr

/-- Product video status enum (`VideoStatus` from the Prisma client). -/
inductive VideoStatus where
  | QUEUED
  | PROCESSING
  | COMPLETED
  | FAILED
  | CANCELLED
deriving DecidableEq, Repr

/-- String rendering of a job status, as Prisma stores it into the
`currentStep` string column (`currentStep: status`). -/
def JobStatus.name : JobStatus → String
  | JobStatus.QUEUED => "QUEUED"
  | JobStatus.DOWNLOADING => "DOWNLOADING"
  | JobStatus.EXTRACTING_AUDIO => "EXTRACTING_AUDIO"
  | JobStatus.SEPARATING_AUDIO => "SEPARATING_AUDIO"
  | JobStatus.TRANSCRIBING => "TRANSCRIBING"
  | JobStatus.TRANSLATING => "TRANSLATING"
  | JobStatus.GENERATING_VOICE => "GENERATING_VOICE"
  | JobStatus.MIXING_AUDIO => "MIXING_AUDIO"
  | JobStatus.ENCODING_VIDEO => "ENCODING_VIDEO"
  | JobStatus.GENERATING_HLS => "GENERATING_HLS"
  | JobStatus.UPLOADING => "UPLOADING"
  | JobStatus.COMPLETED => "COMPLETED"
  | JobStatus.FAILED => "FAILED"

/-- JavaScript truthiness of an optional string (`undefined`, `null` and
`""` are falsy). -/
def strTruthy : Option String → Bool
  | none => false
  | some s => s ≠ ""

/-- JavaScript truthiness of an optional boolean. -/
def boolTruthy : Option Bool → Bool
  | none => false
  | some b => b

/-- JavaScript `x || d` for an optional string `x` (an empty string also
falls back to the default). -/
def orDefaultStr (x : Option String) (d : String) : String :=
  match x with
  | none => d
  | some s => if s = "" then d else s

/-- One time-aligned transcription segment.  The source field `end` is a
reserved word in Lean, so it is rendered `stop`. -/
structure TimingSegment where
  id : Nat
  start : Nat
  stop : Nat
  text : String
deriving DecidableEq, Repr

/-- `videoMeta` JSON payload written by the processor
(duration / resolution / size / format). -/
structure VideoMetaRec where
  duration : Nat
  resolution : String
  size : Nat
  format : String
deriving DecidableEq, Repr

/-- `audioMeta` JSON payload written by the processor.  The constant float
fields `ttsConfig.speed = 1.0` and `ttsConfig.pitch = 1.0` are omitted
(floating point); the voice string and timing segments are kept. -/
structure AudioMetaRec where
  transcription : String
  translation : String
  ttsVoice : String
  timings : List TimingSegment
deriving DecidableEq, Repr

/-- Video processing options as submitted by the caller; every field is
optional exactly as in `VideoProcessingOptions`. -/
structure VideoProcessingOptions where
  keepBGM : Option Bool := none
  ttsVoice : Option String := none
  quality : Option String := none
  generateSubtitles : Option Bool := none
  generateHLS : Option Bool := none
  targetLang : Option String := none
deriving DecidableEq, Repr

/-- A `VideoDubbingJob` Prisma record.  Nullable columns are `Option`;
`queuedAt` is filled by a schema default outside the analyzed sources and
is irrelevant to the claims, so it is kept abstract as `Option Nat`.

Modelled from the spec: the Prisma schema itself is not among the
analyzed sources, so the column defaults used by
`videoDubbingJob.create` (which sets only status/progress/options and
the linkage fields) are taken from the spec — `retryCount` starts at 0
and `maxRetries` is the bounded automatic-retry count 3 (§4.1 "bounded
automatic-retry count (e.g., 3)", §8 Scenario B "attempt 1 of 3"). -/
structure VideoDubbingJob where
  id : String
  product1688Id : String
  originalVideoUrl : String
  sourceLang : String := "zh"
  targetLang : String := "vi"
  options : VideoProcessingOptions := {}
  status : JobStatus
  progress : Nat
  currentStep : Option String := none
  retryCount : Nat := 0
  maxRetries : Nat := 3
  queuedAt : Option Nat := none
  startedAt : Option Nat := none
  completedAt : Option Nat := none
  failedAt : Option Nat := none
  dubbedVideoUrl : Option String := none
  hlsPlaylistUrl : Option String := none
  subtitlesUrl : Option String := none
  thumbnailUrl : Option String := none
  errorMessage : Option String := none
  errorStack : Option String := none
  processingTime : Option Nat := none
  videoMeta : Option VideoMetaRec := none
  audioMeta : Option AudioMetaRec := none
deriving DecidableEq, Repr

/-- The `Product1688` record fields this subsystem reads or writes
(the source entity that owns the original video and mirrors the latest
job outcome). -/
structure Product1688 where
  id : String
  originalVideoUrl : Option String := none
  dubbedVideoUrl : Option String := none
  hlsPlaylistUrl : Option String := none
  thumbnailUrl : Option String := none
  videoStatus : Option VideoStatus := none
  videoProcessedAt : Option Nat := none
  videoMeta : Option VideoMetaRec := none
deriving DecidableEq, Repr

/-- BullMQ job payload (`VideoDubbingJobData`). -/
structure VideoDubbingJobData where
  jobId : String
  product1688Id : String
  originalVideoUrl : String
  options : VideoProcessingOptions
deriving DecidableEq, Repr

/-- The options object passed to `queue.add`. -/
structure QueueAddOpts where
  attempts : Nat
  backoffType : Option String := none
  backoffDelay : Option Nat := none
  removeOnComplete : Option Bool := none
  removeOnFail : Option Bool := none
deriving DecidableEq, Repr

/-- One work item handed to `videoDubbingQueue.add`. -/
structure QueueItem where
  name : String
  data : VideoDubbingJobData
  opts : QueueAddOpts
deriving DecidableEq, Repr

/-- The NestJS exceptions the service throws. -/
inductive ServiceError where
  | notFound (msg : String)
  | badRequest (msg : String)
  | conflict (msg : String)
deriving DecidableEq, Repr

/-- Whether a service error is a `NotFoundException`. -/
def ServiceError.isNotFound : ServiceError → Bool
  | .notFound _ => true
  | _ => false

/-- `ProcessVideoResponseDto`. -/
structure ProcessVideoResponse where
  jobId : String
  status : String
  estimatedTime : Nat
  message : String
deriving DecidableEq, Repr

/-- The S3/R2 configuration consulted by `getPublicUrl`. -/
structure S3Config where
  publicUrl : Option String := none
  endpoint : String := "https://endpoint.example"
  bucket : String := "bucket"
deriving DecidableEq, Repr

/-- `S3Service.getPublicUrl`: the public URL of a stored object. -/
def S3Config.getPublicUrl (cfg : S3Config) (key : String) : String :=
  match cfg.publicUrl with
  | some u => u ++ "/" ++ key
  | none => cfg.endpoint ++ "/" ++ cfg.bucket ++ "/" ++ key

/-- The characters after the last occurrence of `sep` (the whole string
when `sep` does not occur): JavaScript's `s.split(sep).pop()`. -/
def splitLastAux (sep : Char) : List Char → List Char → List Char
  | [], seg => seg
  | c :: rest, seg =>
    if c = sep then splitLastAux sep rest []
    else splitLastAux sep rest (seg ++ [c])

/-- JavaScript `s.split(sep).pop()` (for a single-character separator;
`split` always yields at least one element, so `pop` is total). -/
def splitLast (sep : Char) (s : String) : String :=
  String.mk (splitLastAux sep s.data [])

/-- `S3Service.generateKey`.  In the source, `timestamp` is `Date.now()`
and `randomString` is drawn from `Math.random()`; both are inputs here.
The extension is `filename.split('.').pop()`. -/
def generateKey (prefx filename : String) (timestamp : Nat) (randomString : String) : String :=
  let extension := splitLast '.' filename
  prefx ++ "/" ++ toString timestamp ++ "-" ++ randomString ++ "." ++ extension

/-- The characters after the first `"://"`, when one occurs (the scheme
separator `new URL` requires). -/
def dropThroughSlashes : List Char → Option (List Char)
  | ':' :: '/' :: '/' :: rest => some rest
  | _ :: rest => dropThroughSlashes rest
  | [] => none

/-- The characters after the first `'/'` (the pathname of a URL whose
scheme prefix has been removed, without its leading slash; empty when the
URL has no path, since then the pathname is just `"/"`). -/
def afterFirstSlash : List Char → List Char
  | [] => []
  | '/' :: rest => rest
  | _ :: rest => afterFirstSlash rest

/-- `VideoDubbingService.extractS3Key`: `new URL(url).pathname.slice(1)`;
when the URL does not parse (no scheme separator), the catch-block
returns the URL itself. -/
def extractS3Key (url : String) : String :=
  match dropThroughSlashes url.data with
  | some rest => String.mk (afterFirstSlash rest)
  | none => url

/-- `VideoDownloadResult` (path plus media metadata). -/
structure DownloadResult where
  filePath : String
  format : String := "mp4"
  resolution : String := ""
  duration : Nat := 0
  size : Nat := 0
deriving DecidableEq, Repr

/-- `AudioExtractionResult`. -/
structure AudioExtractionResult where
  audioPath : String
  duration : Nat := 0
  sampleRate : Nat := 16000
  channels : Nat := 1
deriving DecidableEq, Repr

/-- `AudioSeparationResult` (voice track plus optional background track). -/
structure AudioSeparationResult where
  voicePath : String
  musicPath : Option String
  duration : Nat := 0
deriving DecidableEq, Repr

/-- `WhisperTranscription`. -/
structure WhisperTranscription where
  text : String
  language : String := "zh"
  duration : Nat := 0
  segments : List TimingSegment := []
deriving DecidableEq, Repr

/-- `TTSResult`. -/
structure TTSResult where
  audioPath : String
  duration : Nat := 0
  sampleRate : Nat := 24000
deriving DecidableEq, Repr

/-- `VideoEncodingResult`. -/
structure VideoEncodingResult where
  videoPath : String
  format : String := "mp4"
  resolution : String := ""
  duration : Nat := 0
  size : Nat := 0
deriving DecidableEq, Repr

/-- `HLSTranscodingResult`. -/
structure HLSTranscodingResult where
  playlistPath : String
  segmentPaths : List String
deriving DecidableEq, Repr

/-- Environment of one execution attempt: the outcome of every engine
collaborator call the attempt may make, the wall clock at the start
(`now`, used for `startedAt`) and at the point of completion or failure
(`now2`), the nondeterministic `(Date.now(), Math.random())` pairs
consumed by successive `generateKey` calls (indexed by call order), and
the success of successive object-store uploads (reading the local file
and the `put` are both inside the attempt's try-block, so one flag per
upload covers both). -/
structure EngineEnv where
  download : Except String DownloadResult
  extractAudio : Except String AudioExtractionResult
  separateAudio : Except String AudioSeparationResult
  transcribe : Except String WhisperTranscription
  translateText : Except String String
  synthesize : Except String TTSResult
  mixAudio : Except String String
  replaceAudio : Except String VideoEncodingResult
  generateHLS : Except String HLSTranscodingResult
  generateThumbnail : Except String String
  nonce : Nat → Nat × String
  uploadOk : Nat → Bool
  s3cfg : S3Config := {}
  now : Nat := 0
  now2 : Nat := 0

/-- One persisted `(status, progress)` job write. -/
structure StatusUpdate where
  status : JobStatus
  progress : Nat
deriving DecidableEq, Repr

/-- One `s3Service.upload` call: object key, content type, and the
`Cache-Control` header when one is passed. -/
structure UploadCall where
  key : String
  contentType : String
  cacheControl : Option String
deriving DecidableEq, Repr

/-- The mutable context of one `process` attempt: current database
records, the ordered trace of persisted `(status, progress)` job writes,
the `tempFiles` accumulator, the ordered upload calls, and the counter
of `generateKey`/upload calls made so far. -/
structure PipeSt where
  job : VideoDubbingJob
  product : Product1688
  updates : List StatusUpdate := []
  tempFiles : List String := []
  uploads : List UploadCall := []
  callIdx : Nat := 0
deriving Repr

/-- `updateJobStatus`: persist status, progress and `currentStep`
(the status string), and append the write to the trace. -/
def updJob (st : PipeSt) (s : JobStatus) (p : Nat) : PipeSt :=
  { st with
    job := { st.job with status := s, progress := p, currentStep := some s.name }
    updates := st.updates ++ [⟨s, p⟩] }

/-- The first `updateJobStatus` call of an attempt additionally persists
`startedAt: new Date()`. -/
def updJobStarted (st : PipeSt) (s : JobStatus) (p : Nat) (now : Nat) : PipeSt :=
  let st := updJob st s p
  { st with job := { st.job with startedAt := some now } }

/-- `updateProductStatus`. -/
def updProduct (st : PipeSt) (v : VideoStatus) : PipeSt :=
  { st with product := { st.product with videoStatus := some v } }

/-- `tempFiles.push(path)`. -/
def pushTemp (st : PipeSt) (path : String) : PipeSt :=
  { st with tempFiles := st.tempFiles ++ [path] }

/-- One `generateKey` + `fs.readFile` + `s3Service.upload` step: draw the
next `(Date.now(), Math.random())` pair, build the key, record the upload
call, and either return the public URL or raise the upload failure. -/
def s3UploadCall (env : EngineEnv) (st : PipeSt) (prefx filename contentType : String)
    (cacheControl : Option String) : PipeSt × Except String String :=
  let idx := st.callIdx
  let t := (env.nonce idx).1
  let r := (env.nonce idx).2
  let key := generateKey prefx filename t r
  let st := { st with
    callIdx := idx + 1
    uploads := st.uploads ++ [⟨key, contentType, cacheControl⟩] }
  if env.uploadOk idx then
    (st, Except.ok (env.s3cfg.getPublicUrl key))
  else
    (st, Except.error "Upload failed")

/-- The segment loop of `uploadHLS`: each segment is uploaded under
`videos/hls` with the last path component as its filename and content
type `video/mp2t`; the first failing upload aborts the loop. -/
def uploadSegments (env : EngineEnv) (pid : String) :
    List String → PipeSt → PipeSt × Except String Unit
  | [], st => (st, Except.ok ())
  | sp :: rest, st =>
    let segmentName := splitLast '/' sp
    match s3UploadCall env st "videos/hls" (pid ++ "/" ++ segmentName) "video/mp2t" none with
    | (st, Except.ok _) => uploadSegments env pid rest st
    | (st, Except.error e) => (st, Except.error e)

/-- `uploadHLS`: upload the playlist (content type
`application/vnd.apple.mpegurl`), then every segment, and return the
playlist URL. -/
def uploadHLS (env : EngineEnv) (st : PipeSt) (segmentPaths : List String)
    (pid : String) : PipeSt × Except String String :=
  match s3UploadCall env st "videos/hls" (pid ++ "/playlist.m3u8")
      "application/vnd.apple.mpegurl" none with
  | (st, Except.error e) => (st, Except.error e)
  | (st, Except.ok playlistUrl) =>
    match uploadSegments env pid segmentPaths st with
    | (st, Except.ok _) => (st, Except.ok playlistUrl)
    | (st, Except.error e) => (st, Except.error e)

/-- `handleError`: re-read the job record; when `retryCount >= maxRetries`
mark the job FAILED (with `failedAt`, message and stack) and mirror FAILED
onto the product, otherwise increment `retryCount` and persist the error
message, leaving status and progress untouched. -/
def handleError (st : PipeSt) (errMessage errStack : String) (now : Nat) : PipeSt :=
  let job := st.job
  if job.retryCount ≥ job.maxRetries then
    { st with
      job := { job with
        status := JobStatus.FAILED
        failedAt := some now
        errorMessage := some errMessage
        errorStack := some errStack }
      product := { st.product with videoStatus := some VideoStatus.FAILED } }
  else
    { st with
      job := { job with
        retryCount := job.retryCount + 1
        errorMessage := some errMessage } }

/-- Everything one delivery of a work item leaves behind: final database
records, the persisted `(status, progress)` write trace, the upload
calls, the accumulated `tempFiles`, the paths handed to `cleanup`
(every unlink failure there is caught and logged), and the error the
attempt re-threw to BullMQ, if any. -/
structure ProcessResult where
  job : VideoDubbingJob
  product : Product1688
  updates : List StatusUpdate
  uploads : List UploadCall
  tempFiles : List String
  cleaned : List String
  rethrown : Option String
deriving Repr

/-- Success epilogue of `process`: `cleanup(tempFiles)` and return. -/
def finishSuccess (st : PipeSt) : ProcessResult :=
  ⟨st.job, st.product, st.updates, st.uploads, st.tempFiles, st.tempFiles, none⟩

/-- Catch-block of `process`: `handleError`, `cleanup(tempFiles)`, and
re-throw the error so BullMQ can retry the delivery.  The error stack is
abstracted by the error message itself. -/
def finishFailure (st : PipeSt) (e : String) (now : Nat) : ProcessResult :=
  let st := handleError st e e now
  ⟨st.job, st.product, st.updates, st.uploads, st.tempFiles, st.tempFiles, some e⟩

/-- The tail of `VideoDubbingProcessor.process` from step 9 on (optional
HLS generation and upload, thumbnail, upload to R2, persisting results,
cleanup), split out of `process` so the two halves can be reasoned about
separately; `process` invokes it after step 8. -/
def processUpload (env : EngineEnv) (data : VideoDubbingJobData) (st : PipeSt)
    (downloadResult : DownloadResult) (transcription : WhisperTranscription)
    (translationText : String) (encodingResult : VideoEncodingResult) : ProcessResult :=
  let options := data.options
  -- Step 9: optional HLS generation and upload (HLS working files are not
  -- pushed onto tempFiles in the source)
  let hlsStep : PipeSt × Except String (Option String) :=
    if boolTruthy options.generateHLS then
      let st := updJob st JobStatus.GENERATING_HLS 85
      match env.generateHLS with
      | Except.error e => (st, Except.error e)
      | Except.ok hlsResult =>
        match uploadHLS env st hlsResult.segmentPaths data.product1688Id with
        | (st, Except.ok url) => (st, Except.ok (some url))
        | (st, Except.error e) => (st, Except.error e)
    else
      (st, Except.ok none)
  match hlsStep with
  | (st, Except.error e) => finishFailure st e env.now2
  | (st, Except.ok hlsPlaylistUrl) =>
  -- Step 10: thumbnail
  match env.generateThumbnail with
  | Except.error e => finishFailure st e env.now2
  | Except.ok thumbnailPath =>
  let st := pushTemp st thumbnailPath
  -- Step 11: upload to R2
  let st := updJob st JobStatus.UPLOADING 90
  match s3UploadCall env st "videos/dubbed" (data.product1688Id ++ ".mp4")
      "video/mp4" (some "public, max-age=31536000") with
  | (st, Except.error e) => finishFailure st e env.now2
  | (st, Except.ok dubbedVideoUrl) =>
  match s3UploadCall env st "videos/thumbnails" (data.product1688Id ++ ".jpg")
      "image/jpeg" none with
  | (st, Except.error e) => finishFailure st e env.now2
  | (st, Except.ok thumbnailUrl) =>
  -- Step 12: persist results onto the product, then onto the job
  let processingTime := (env.now2 - env.now) / 1000
  let st := { st with product := { st.product with
    dubbedVideoUrl := some dubbedVideoUrl
    hlsPlaylistUrl := hlsPlaylistUrl
    thumbnailUrl := some thumbnailUrl
    videoStatus := some VideoStatus.COMPLETED
    videoProcessedAt := some env.now2
    videoMeta := some ⟨downloadResult.duration, orDefaultStr options.quality "720p",
      encodingResult.size, encodingResult.format⟩ } }
  let st := { st with
    job := { st.job with
      status := JobStatus.COMPLETED
      progress := 100
      currentStep := some "COMPLETED"
      completedAt := some env.now2
      dubbedVideoUrl := some dubbedVideoUrl
      hlsPlaylistUrl := hlsPlaylistUrl
      subtitlesUrl := none
      thumbnailUrl := some thumbnailUrl
      processingTime := some processingTime
      videoMeta := some ⟨downloadResult.duration, encodingResult.resolution,
        encodingResult.size, encodingResult.format⟩
      audioMeta := some ⟨transcription.text, translationText,
        orDefaultStr options.ttsVoice "vi-female-1", transcription.segments⟩ }
    updates := st.updates ++ [⟨JobStatus.COMPLETED, 100⟩] }
  -- Step 13: cleanup
  finishSuccess st

/-- The middle of `VideoDubbingProcessor.process`, steps 4-8
(transcription, translation, TTS, mixing, encoding), followed by the
tail; split out of `process` so it can be reasoned about separately. -/
def processTranscribe (env : EngineEnv) (data : VideoDubbingJobData) (st : PipeSt)
    (downloadResult : DownloadResult) : ProcessResult :=
  -- Step 4: transcription
  let st := updJob st JobStatus.TRANSCRIBING 30
  match env.transcribe with
  | Except.error e => finishFailure st e env.now2
  | Except.ok transcription =>
  -- Step 5: translation
  let st := updJob st JobStatus.TRANSLATING 50
  match env.translateText with
  | Except.error e => finishFailure st e env.now2
  | Except.ok translationText =>
  -- Step 6: TTS
  let st := updJob st JobStatus.GENERATING_VOICE 60
  match env.synthesize with
  | Except.error e => finishFailure st e env.now2
  | Except.ok ttsResult =>
  let st := pushTemp st ttsResult.audioPath
  -- Step 7: mixing
  let st := updJob st JobStatus.MIXING_AUDIO 70
  match env.mixAudio with
  | Except.error e => finishFailure st e env.now2
  | Except.ok mixedAudioPath =>
  let st := pushTemp st mixedAudioPath
  -- Step 8: encoding
  let st := updJob st JobStatus.ENCODING_VIDEO 80
  match env.replaceAudio with
  | Except.error e => finishFailure st e env.now2
  | Except.ok encodingResult =>
  let st := pushTemp st encodingResult.videoPath
  -- Steps 9-13
  processUpload env data st downloadResult transcription translationText encodingResult

/-- `VideoDubbingProcessor.process`: one delivery of a work item, executed
against the engine outcomes in `env` starting from the current job and
product records. -/
def process (env : EngineEnv) (data : VideoDubbingJobData)
    (job0 : VideoDubbingJob) (product0 : Product1688) : ProcessResult :=
  let options := data.options
  let st : PipeSt := { job := job0, product := product0 }
  let st := updJobStarted st JobStatus.DOWNLOADING 0 env.now
  let st := updProduct st VideoStatus.PROCESSING
  -- Step 1: download
  let st := updJob st JobStatus.DOWNLOADING 10
  match env.download with
  | Except.error e => finishFailure st e env.now2
  | Except.ok downloadResult =>
  let st := pushTemp st downloadResult.filePath
  -- Step 2: extract audio
  let st := updJob st JobStatus.EXTRACTING_AUDIO 20
  match env.extractAudio with
  | Except.error e => finishFailure st e env.now2
  | Except.ok audioResult =>
  let st := pushTemp st audioResult.audioPath
  -- Step 3: optional source separation (separated tracks are not pushed
  -- onto tempFiles in the source)
  let sepStep : PipeSt × Except String (String × Option String) :=
    if boolTruthy options.keepBGM then
      let st := updJob st JobStatus.SEPARATING_AUDIO 25
      match env.separateAudio with
      | Except.error e => (st, Except.error e)
      | Except.ok sep => (st, Except.ok (sep.voicePath, sep.musicPath))
    else
      (st, Except.ok (audioResult.audioPath, none))
  match sepStep with
  | (st, Except.error e) => finishFailure st e env.now2
  | (st, Except.ok (_voicePath, _musicPath)) =>
  -- Steps 4-13
  processTranscribe env data st downloadResult

/-- `n` successive BullMQ deliveries of the same work item: a delivery is
re-attempted only when the previous one re-threw its error (BullMQ retries
failed deliveries up to the configured `attempts`, never completed ones). -/
def deliverAttempts (env : EngineEnv) (data : VideoDubbingJobData) :
    Nat → VideoDubbingJob → Product1688 → VideoDubbingJob × Product1688
  | 0, j, p => (j, p)
  | Nat.succ n, j, p =>
    let r := process env data j p
    match r.rethrown with
    | some _ => deliverAttempts env data n r.job r.product
    | none => (r.job, r.product)

/-- Everything a successful `queueVideoProcessing` call writes: the
created job record, the updated product record, the enqueued work item,
and the HTTP response.  An `Except.error` result models the NestJS
exception thrown before any of these writes happen. -/
structure SubmitEffects where
  job : VideoDubbingJob
  product : Product1688
  queued : QueueItem
  response : ProcessVideoResponse
deriving DecidableEq, Repr

/-- The fully-defaulted options `queueVideoProcessing` places into the
queue payload (`options?.x || default` for each field). -/
def resolveOptions (options : Option VideoProcessingOptions) : VideoProcessingOptions :=
  { keepBGM := some (boolTruthy (options.bind (fun o => o.keepBGM)))
    ttsVoice := some (orDefaultStr (options.bind (fun o => o.ttsVoice)) "vi-female-1")
    quality := some (orDefaultStr (options.bind (fun o => o.quality)) "720p")
    generateSubtitles := some (boolTruthy (options.bind (fun o => o.generateSubtitles)))
    generateHLS := some (boolTruthy (options.bind (fun o => o.generateHLS)))
    targetLang := some (orDefaultStr (options.bind (fun o => o.targetLang)) "vi") }

/-- `VideoDubbingService.queueVideoProcessing`.  `product?` is the result
of the `product1688.findUnique` lookup and `newJobId` the id Prisma
assigns to the created row.  Checks run in source order: missing product
→ NotFound; falsy `originalVideoUrl` → BadRequest; mirrored status
PROCESSING or QUEUED → Conflict; otherwise create the job (status
QUEUED, progress 0, raw options stored on the row), set the product's
mirrored status to QUEUED, and enqueue one `dub-video` item with
3 attempts and exponential backoff starting at 5000 ms. -/
def queueVideoProcessing (product1688Id : String) (product? : Option Product1688)
    (options : Option VideoProcessingOptions) (newJobId : String) :
    Except ServiceError SubmitEffects :=
  match product? with
  | none =>
    Except.error (ServiceError.notFound
      ("Product1688 with ID " ++ product1688Id ++ " not found"))
  | some product =>
    if strTruthy product.originalVideoUrl = false then
      Except.error (ServiceError.badRequest "Product does not have a video URL")
    else if product.videoStatus = some VideoStatus.PROCESSING
        ∨ product.videoStatus = some VideoStatus.QUEUED then
      Except.error (ServiceError.conflict "Video is already being processed")
    else
      let url := product.originalVideoUrl.getD ""
      let job : VideoDubbingJob :=
        { id := newJobId
          product1688Id := product1688Id
          originalVideoUrl := url
          sourceLang := "zh"
          targetLang := orDefaultStr (options.bind (fun o => o.targetLang)) "vi"
          options := options.getD {}
          status := JobStatus.QUEUED
          progress := 0 }
      let product' := { product with videoStatus := some VideoStatus.QUEUED }
      let jobData : VideoDubbingJobData :=
        { jobId := newJobId
          product1688Id := product1688Id
          originalVideoUrl := url
          options := resolveOptions options }
      let item : QueueItem :=
        { name := "dub-video"
          data := jobData
          opts :=
            { attempts := 3
              backoffType := some "exponential"
              backoffDelay := some 5000
              removeOnComplete := some false
              removeOnFail := some false } }
      Except.ok
        { job := job
          product := product'
          queued := item
          response :=
            { jobId := newJobId
              status := "QUEUED"
              estimatedTime := 300
              message := "Video processing job queued successfully" } }

/-- Everything a successful `retryJob` call writes. -/
structure RetryEffects where
  job : VideoDubbingJob
  queued : QueueItem
  response : ProcessVideoResponse
deriving DecidableEq, Repr

/-- `VideoDubbingService.retryJob`.  `job?` is the `findUnique` result.
Unknown id → NotFound; status other than FAILED → Conflict thrown before
any write; otherwise reset the execution fields, increment `retryCount`,
set status QUEUED and enqueue one `dub-video` item with a single attempt
(no automatic retry). -/
def retryJob (jobId : String) (job? : Option VideoDubbingJob) :
    Except ServiceError RetryEffects :=
  match job? with
  | none =>
    Except.error (ServiceError.notFound ("Job with ID " ++ jobId ++ " not found"))
  | some job =>
    if job.status ≠ JobStatus.FAILED then
      Except.error (ServiceError.conflict "Job is not in FAILED status")
    else
      let job' := { job with
        status := JobStatus.QUEUED
        progress := 0
        currentStep := none
        startedAt := none
        failedAt := none
        errorMessage := none
        errorStack := none
        retryCount := job.retryCount + 1 }
      let jobData : VideoDubbingJobData :=
        { jobId := job.id
          product1688Id := job.product1688Id
          originalVideoUrl := job.originalVideoUrl
          options := job.options }
      Except.ok
        { job := job'
          queued := { name := "dub-video", data := jobData, opts := { attempts := 1 } }
          response :=
            { jobId := job.id
              status := "QUEUED"
              estimatedTime := 300
              message := "Job re-queued successfully" } }

/-- Everything a successful `deleteVideo` call does: the forced-FAILED
job write when the latest job was active, the ids of queue items removed,
the object-store keys passed to `s3Service.delete` in order (each delete
is inside its own try/catch, so a failing delete is logged and the next
one still runs — the attempted keys do not depend on delete outcomes),
and the final product record. -/
structure DeleteEffects where
  jobUpdate : Option VideoDubbingJob
  removedFromQueue : List String
  deleteAttempts : List String
  product : Product1688
deriving DecidableEq, Repr

/-- `VideoDubbingService.deleteVideo`.  `product?` is the `findUnique`
result, `latestJob` the most recently queued job included with it (absent
when the product has no job history), `queueJobIds` the ids of waiting or
active BullMQ items, and `now` the wall clock. -/
def deleteVideo (product1688Id : String) (product? : Option Product1688)
    (latestJob : Option VideoDubbingJob) (queueJobIds : List String) (now : Nat) :
    Except ServiceError DeleteEffects :=
  match product? with
  | none =>
    Except.error (ServiceError.notFound
      ("Product1688 with ID " ++ product1688Id ++ " not found"))
  | some product =>
    let cancel : Option VideoDubbingJob × List String :=
      match latestJob with
      | some activeJob =>
        if activeJob.status ≠ JobStatus.COMPLETED ∧ activeJob.status ≠ JobStatus.FAILED then
          (some { activeJob with
              status := JobStatus.FAILED
              errorMessage := some "Job cancelled by user"
              failedAt := some now },
            queueJobIds.filter (fun i => i = activeJob.id))
        else
          (none, [])
      | none => (none, [])
    let del1 :=
      match product.dubbedVideoUrl with
      | some u => if u ≠ "" then [extractS3Key u] else []
      | none => []
    let del2 :=
      match product.hlsPlaylistUrl with
      | some u => if u ≠ "" then [extractS3Key u] else []
      | none => []
    let del3 :=
      match product.thumbnailUrl with
      | some u => if u ≠ "" then [extractS3Key u] else []
      | none => []
    let product' := { product with
      dubbedVideoUrl := none
      hlsPlaylistUrl := none
      thumbnailUrl := none
      videoStatus := some VideoStatus.CANCELLED
      videoMeta := none }
    Except.ok
      { jobUpdate := cancel.1
        removedFromQueue := cancel.2
        deleteAttempts := del1 ++ del2 ++ del3
        product := product' }

/-- Collapse equal consecutive elements (used to read an observed status
or progress sequence off the raw write trace). -/
def dedupConsec {α : Type} [DecidableEq α] : List α → List α
  | [] => []
  | [a] => [a]
  | a :: b :: rest => if a = b then dedupConsec (b :: rest) else a :: dedupConsec (b :: rest)

/-- A list of naturals is non-decreasing. -/
def nonDecreasing : List Nat → Bool
  | [] => true
  | [_] => true
  | a :: b :: rest => a ≤ b && nonDecreasing (b :: rest)

/-- The spec's state machine (§4.2) as a write trace: the fixed
checkpoint writes one fully successful delivery performs, with the
optional stages gated by the job's configuration.  The leading
`(DOWNLOADING, 0)` write is the attempt's `startedAt` write; the trailing
`(COMPLETED, 100)` write is the completion write. -/
def specCheckpointTrace (options : VideoProcessingOptions) : List StatusUpdate :=
  [⟨JobStatus.DOWNLOADING, 0⟩, ⟨JobStatus.DOWNLOADING, 10⟩,
   ⟨ JobStatus.EXTRACTING_AUDIO, 20⟩]
  ++ (if boolTruthy options.keepBGM then [⟨ JobStatus.SEPARATING_AUDIO, 25⟩] else [])
  ++ [⟨JobStatus.TRANSCRIBING, 30⟩, ⟨JobStatus.TRANSLATING, 50⟩,
      ⟨JobStatus.GENERATING_VOICE, 60⟩, ⟨ JobStatus.MIXING_AUDIO, 70⟩,
      ⟨JobStatus.ENCODING_VIDEO, 80⟩]
  ++ (if boolTruthy options.generateHLS then [⟨JobStatus.GENERATING_HLS, 85⟩] else [])
  ++ [⟨JobStatus.UPLOADING, 90⟩, ⟨JobStatus.COMPLETED, 100⟩]

/-- The status sequence the spec's Scenario A lists for a keepBGM=false,
generateHLS=false job. -/
def claimStatusSequence : List JobStatus :=
  [JobStatus.QUEUED, JobStatus.DOWNLOADING, JobStatus.EXTRACTING_AUDIO,
   JobStatus.TRANSCRIBING, JobStatus.TRANSLATING, JobStatus.GENERATING_VOICE,
   JobStatus.MIXING_AUDIO, JobStatus.ENCODING_VIDEO, JobStatus.UPLOADING,
   JobStatus.COMPLETED]

/-- The checkpoint percentages the spec lists for that configuration. -/
def claimProgressSequence : List Nat :=
  [0, 10, 20, 30, 50, 60, 70, 80, 90, 100]

/-- The three-way record invariant of the spec's data model (§3):
status is COMPLETED iff progress is 100 iff the dubbed video URL is a
non-empty string. -/
def jobInv (j : VideoDubbingJob) : Prop :=
  (j.status = JobStatus.COMPLETED ↔ j.progress = 100)
  ∧ (j.status = JobStatus.COMPLETED ↔ strTruthy j.dubbedVideoUrl = true)

instance (j : VideoDubbingJob) : Decidable (jobInv j) := by
  unfold jobInv
  infer_instance

/-- Job records reachable through the operations of this subsystem:
a record created by a successful Submit; the record a queue delivery
leaves behind (BullMQ only delivers items whose job has not completed —
a completed delivery is never re-attempted and every enqueue precedes
any COMPLETED write of that record); the record a successful manual
Retry writes; and the forced-FAILED record a Cancel writes over an
active job. -/
inductive ReachableJob : VideoDubbingJob → Prop where
  | submitted (product1688Id : String) (product? : Option Product1688)
      (options : Option VideoProcessingOptions) (newJobId : String) (eff : SubmitEffects) :
      queueVideoProcessing product1688Id product? options newJobId = Except.ok eff →
      ReachableJob eff.job
  | delivered (env : EngineEnv) (data : VideoDubbingJobData) (j : VideoDubbingJob)
      (p : Product1688) :
      ReachableJob j → j.status ≠ JobStatus.COMPLETED →
      ReachableJob (process env data j p).job
  | retried (jobId : String) (j : VideoDubbingJob) (eff : RetryEffects) :
      ReachableJob j → retryJob jobId (some j) = Except.ok eff →
      ReachableJob eff.job
  | cancelled (product1688Id : String) (product? : Option Product1688)
      (queueJobIds : List String) (now : Nat) (j j' : VideoDubbingJob)
      (eff : DeleteEffects) :
      ReachableJob j →
      deleteVideo product1688Id product? (some j) queueJobIds now = Except.ok eff →
      eff.jobUpdate = some j' →
      ReachableJob j'

/-- The upload calls the segment loop of `uploadHLS` performs when every
upload succeeds, starting at nonce index `i`. -/
def expectedSegUploads (env : EngineEnv) (pid : String) :
    List String → Nat → List UploadCall
  | [], _ => []
  | sp :: rest, i =>
    ⟨generateKey "videos/hls" (pid ++ "/" ++ splitLast '/' sp)
        (env.nonce i).1 (env.nonce i).2, "video/mp2t", none⟩
    :: expectedSegUploads env pid rest (i + 1)

/-- The result a delivery produces when every engine call and every
upload succeeds, spelled out field by field (the lemma
`process_ok_spec` proves `process` equal to it). -/
def okProcessResult (env : EngineEnv) (data : VideoDubbingJobData)
    (job0 : VideoDubbingJob) (product0 : Product1688)
    (d : DownloadResult) (a : AudioExtractionResult) (tr : WhisperTranscription)
    (tl : String) (tts : TTSResult) (mx : String) (enc : VideoEncodingResult)
    (hls : HLSTranscodingResult) (th : String) : ProcessResult :=
  let options := data.options
  let pid := data.product1688Id
  let hlsOn := boolTruthy options.generateHLS
  let base := if hlsOn then 1 + hls.segmentPaths.length else 0
  let playlistKey := generateKey "videos/hls" (pid ++ "/playlist.m3u8")
    (env.nonce 0).1 (env.nonce 0).2
  let hlsUrl : Option String :=
    if hlsOn then some (env.s3cfg.getPublicUrl playlistKey) else none
  let videoKey := generateKey "videos/dubbed" (pid ++ ".mp4")
    (env.nonce base).1 (env.nonce base).2
  let thumbKey := generateKey "videos/thumbnails" (pid ++ ".jpg")
    (env.nonce (base + 1)).1 (env.nonce (base + 1)).2
  let dubbedVideoUrl := env.s3cfg.getPublicUrl videoKey
  let thumbnailUrl := env.s3cfg.getPublicUrl thumbKey
  let tmp := [d.filePath, a.audioPath, tts.audioPath, mx, enc.videoPath, th]
  { job := { job0 with
      status := JobStatus.COMPLETED
      progress := 100
      currentStep := some "COMPLETED"
      startedAt := some env.now
      completedAt := some env.now2
      dubbedVideoUrl := some dubbedVideoUrl
      hlsPlaylistUrl := hlsUrl
      subtitlesUrl := none
      thumbnailUrl := some thumbnailUrl
      processingTime := some ((env.now2 - env.now) / 1000)
      videoMeta := some ⟨d.duration, enc.resolution, enc.size, enc.format⟩
      audioMeta := some ⟨tr.text, tl, orDefaultStr options.ttsVoice "vi-female-1",
        tr.segments⟩ }
    product := { product0 with
      dubbedVideoUrl := some dubbedVideoUrl
      hlsPlaylistUrl := hlsUrl
      thumbnailUrl := some thumbnailUrl
      videoStatus := some VideoStatus.COMPLETED
      videoProcessedAt := some env.now2
      videoMeta := some ⟨d.duration, orDefaultStr options.quality "720p",
        enc.size, enc.format⟩ }
    updates := specCheckpointTrace options
    uploads :=
      (if hlsOn then
        ⟨playlistKey, "application/vnd.apple.mpegurl", none⟩
          :: expectedSegUploads env pid hls.segmentPaths 1
      else [])
      ++ [⟨videoKey, "video/mp4", some "public, max-age=31536000"⟩,
          ⟨thumbKey, "image/jpeg", none⟩]
    tempFiles := tmp
    cleaned := tmp
    rethrown := none }

/-- The segment loop never touches the database records, the status
trace or the temp-file accumulator. -/
theorem uploadSegments_preserves (env : EngineEnv) (pid : String) :
    ∀ (segs : List String) (st : PipeSt),
    (uploadSegments env pid segs st).1.job = st.job
    ∧ (uploadSegments env pid segs st).1.product = st.product
    ∧ (uploadSegments env pid segs st).1.updates = st.updates
    ∧ (uploadSegments env pid segs st).1.tempFiles = st.tempFiles := by
  intro segs
  induction segs with
  | nil => intro st; simp [uploadSegments]
  | cons sp rest ih =>
    intro st
    by_cases h : env.uploadOk st.callIdx
    · simpa [uploadSegments, s3UploadCall, h] using ih _
    · simp [uploadSegments, s3UploadCall, h]

/-- When every upload succeeds, the segment loop records exactly the
expected uploads and advances the call counter by the number of
segments. -/
theorem uploadSegments_ok (env : EngineEnv) (pid : String)
    (h : ∀ i, env.uploadOk i = true) :
    ∀ (segs : List String) (st : PipeSt),
    uploadSegments env pid segs st =
      ({ st with
          uploads := st.uploads ++ expectedSegUploads env pid segs st.callIdx
          callIdx := st.callIdx + segs.length }, Except.ok ()) := by
  intro segs
  induction segs with
  | nil => intro st; simp [uploadSegments, expectedSegUploads]
  | cons sp rest ih =>
    intro st
    simp [uploadSegments, s3UploadCall, h, expectedSegUploads, ih,
      Nat.add_assoc, Nat.add_comm, Nat.add_left_comm]

/-- An S3 public URL is never the empty string. -/
theorem getPublicUrl_ne_empty (cfg : S3Config) (key : String) :
    cfg.getPublicUrl key ≠ "" := by
  have hlen : ∀ a b : String, a ++ "/" ++ b ≠ "" := by
    intro a b h
    have h2 : (a ++ "/" ++ b).length = ("" : String).length := by rw [h]
    simp [String.length_append] at h2
    exact absurd h2.1.2 (by decide)
  unfold S3Config.getPublicUrl
  cases cfg.publicUrl with
  | none => exact hlen _ _
  | some u => exact hlen _ _

/-- When every engine call and every upload succeeds, one delivery
produces exactly `okProcessResult`. -/
theorem process_ok_spec (env : EngineEnv) (data : VideoDubbingJobData)
    (job0 : VideoDubbingJob) (product0 : Product1688)
    (d : DownloadResult) (a : AudioExtractionResult) (sep : AudioSeparationResult)
    (tr : WhisperTranscription) (tl : String) (tts : TTSResult) (mx : String)
    (enc : VideoEncodingResult) (hls : HLSTranscodingResult) (th : String)
    (hdl : env.download = Except.ok d)
    (hea : env.extractAudio = Except.ok a)
    (hsp : env.separateAudio = Except.ok sep)
    (htr : env.transcribe = Except.ok tr)
    (htl : env.translateText = Except.ok tl)
    (hts : env.synthesize = Except.ok tts)
    (hmx : env.mixAudio = Except.ok mx)
    (hen : env.replaceAudio = Except.ok enc)
    (hhl : env.generateHLS = Except.ok hls)
    (hth : env.generateThumbnail = Except.ok th)
    (hup : ∀ i, env.uploadOk i = true) :
    process env data job0 product0
      = okProcessResult env data job0 product0 d a tr tl tts mx enc hls th := by
  by_cases hk : boolTruthy data.options.keepBGM <;>
  by_cases hh : boolTruthy data.options.generateHLS <;>
  simp [process, processTranscribe, processUpload, okProcessResult, hdl, hea, hsp, htr, htl, hts, hmx,
    hen, hhl, hth, hup, hk, hh, uploadHLS, uploadSegments_ok env data.product1688Id hup,
    s3UploadCall, updJob, updJobStarted, updProduct, pushTemp, finishSuccess,
    specCheckpointTrace, expectedSegUploads, List.append_assoc]

/-- A single upload call never touches the database records, the status
trace or the temp-file accumulator. -/
theorem s3UploadCall_preserves (env : EngineEnv) (st : PipeSt)
    (prefx filename ct : String) (cc : Option String) :
    (s3UploadCall env st prefx filename ct cc).1.job = st.job
    ∧ (s3UploadCall env st prefx filename ct cc).1.product = st.product
    ∧ (s3UploadCall env st prefx filename ct cc).1.updates = st.updates
    ∧ (s3UploadCall env st prefx filename ct cc).1.tempFiles = st.tempFiles := by
  by_cases h : env.uploadOk st.callIdx <;> simp [s3UploadCall, h]

/-- `uploadHLS` never touches the database records, the status trace or
the temp-file accumulator. -/
theorem uploadHLS_preserves (env : EngineEnv) (st : PipeSt) (segs : List String)
    (pid : String) :
    (uploadHLS env st segs pid).1.job = st.job
    ∧ (uploadHLS env st segs pid).1.product = st.product
    ∧ (uploadHLS env st segs pid).1.updates = st.updates
    ∧ (uploadHLS env st segs pid).1.tempFiles = st.tempFiles := by
  unfold uploadHLS
  rcases h1 : s3UploadCall env st "videos/hls" (pid ++ "/playlist.m3u8")
      "application/vnd.apple.mpegurl" none with ⟨st1, r1⟩
  have hst1 := s3UploadCall_preserves env st "videos/hls" (pid ++ "/playlist.m3u8")
    "application/vnd.apple.mpegurl" none
  rw [h1] at hst1
  cases r1 with
  | error e => simpa using hst1
  | ok url =>
    rcases h2 : uploadSegments env pid segs st1 with ⟨st2, r2⟩
    have hst2 := uploadSegments_preserves env pid segs st1
    rw [h2] at hst2
    simp only [h2] at hst1 ⊢
    cases r2 <;> simp <;>
      exact ⟨hst2.1.trans hst1.1, hst2.2.1.trans hst1.2.1,
        hst2.2.2.1.trans hst1.2.2.1, hst2.2.2.2.trans hst1.2.2.2⟩

/-- What the failure epilogue leaves on the job record: status becomes
FAILED or stays at the last checkpoint, progress is untouched, and the
dubbed video URL is untouched. -/
theorem finishFailure_job_shape (st : PipeSt) (e : String) (now : Nat)
    (hst : st.job.status ≠ JobStatus.COMPLETED)
    (hpr : st.job.progress ≠ 100) :
    (finishFailure st e now).job.status ≠ JobStatus.COMPLETED
    ∧ (finishFailure st e now).job.progress ≠ 100
    ∧ (finishFailure st e now).job.dubbedVideoUrl = st.job.dubbedVideoUrl := by
  unfold finishFailure handleError
  by_cases h : st.job.retryCount ≥ st.job.maxRetries <;> simp [h, hst, hpr]

/-- The checkpoint writes of steps 1-8 (everything before the optional
HLS stage). -/
def preUploadTrace (options : VideoProcessingOptions) : List StatusUpdate :=
  [⟨JobStatus.DOWNLOADING, 0⟩, ⟨JobStatus.DOWNLOADING, 10⟩,
   ⟨ JobStatus.EXTRACTING_AUDIO, 20⟩]
  ++ (if boolTruthy options.keepBGM then [⟨ JobStatus.SEPARATING_AUDIO, 25⟩] else [])
  ++ [⟨JobStatus.TRANSCRIBING, 30⟩, ⟨JobStatus.TRANSLATING, 50⟩,
      ⟨JobStatus.GENERATING_VOICE, 60⟩, ⟨ JobStatus.MIXING_AUDIO, 70⟩,
      ⟨JobStatus.ENCODING_VIDEO, 80⟩]

/-- The full checkpoint trace splits as the pre-upload checkpoints
followed by the optional HLS checkpoint and the final two writes. -/
theorem specCheckpointTrace_eq (options : VideoProcessingOptions) :
    specCheckpointTrace options = preUploadTrace options
      ++ ((if boolTruthy options.generateHLS then [⟨JobStatus.GENERATING_HLS, 85⟩] else [])
        ++ [⟨JobStatus.UPLOADING, 90⟩, ⟨JobStatus.COMPLETED, 100⟩]) := by
  simp [specCheckpointTrace, preUploadTrace, List.append_assoc]

/-- The failure epilogue leaves the status trace unchanged. -/
theorem finishFailure_updates (st : PipeSt) (e : String) (now : Nat) :
    (finishFailure st e now).updates = st.updates := by
  unfold finishFailure handleError
  by_cases h : st.job.retryCount ≥ st.job.maxRetries <;> simp [h]

/-- A successful upload call returns a non-empty URL. -/
theorem s3UploadCall_ok_ne_empty (env : EngineEnv) (st : PipeSt)
    (prefx filename ct : String) (cc : Option String) (st' : PipeSt) (u : String) :
    s3UploadCall env st prefx filename ct cc = (st', Except.ok u) → u ≠ "" := by
  unfold s3UploadCall
  by_cases h : env.uploadOk st.callIdx <;> simp [h]
  intro _ hu
  exact fun hemp => getPublicUrl_ne_empty env.s3cfg _ (hu ▸ hemp)

/-- How the job record a delivery leaves behind relates to the record it
started from: either the delivery completed (COMPLETED, progress 100,
non-empty dubbed URL), or it did not complete and then the status is not
COMPLETED, the progress is not 100, and the dubbed URL is untouched. -/
def jobShapeRel (j0 j1 : VideoDubbingJob) : Prop :=
  (j1.status = JobStatus.COMPLETED ∧ j1.progress = 100
    ∧ strTruthy j1.dubbedVideoUrl = true)
  ∨ (j1.status ≠ JobStatus.COMPLETED ∧ j1.progress ≠ 100
    ∧ j1.dubbedVideoUrl = j0.dubbedVideoUrl)

/-- A failure leaf satisfies both the trace-prefix and the job-shape
conclusion. -/
theorem shape_fail_leaf (options : VideoProcessingOptions) (jref : VideoDubbingJob)
    (st : PipeSt) (e : String) (now : Nat) (kk : Nat)
    (hst : st.job.status ≠ JobStatus.COMPLETED)
    (hpr : st.job.progress ≠ 100)
    (hurl : st.job.dubbedVideoUrl = jref.dubbedVideoUrl)
    (hupd : st.updates = (specCheckpointTrace options).take kk) :
    (∃ k, (finishFailure st e now).updates = (specCheckpointTrace options).take k)
    ∧ jobShapeRel jref (finishFailure st e now).job := by
  constructor
  · exact ⟨kk, (finishFailure_updates st e now).trans hupd⟩
  · have h := finishFailure_job_shape st e now hst hpr
    exact Or.inr ⟨h.1, h.2.1, h.2.2.trans hurl⟩

theorem updJob_job_status (st : PipeSt) (s : JobStatus) (p : Nat) :
    (updJob st s p).job.status = s := rfl

theorem updJob_job_progress (st : PipeSt) (s : JobStatus) (p : Nat) :
    (updJob st s p).job.progress = p := rfl

theorem updJob_job_url (st : PipeSt) (s : JobStatus) (p : Nat) :
    (updJob st s p).job.dubbedVideoUrl = st.job.dubbedVideoUrl := rfl

theorem updJob_updates (st : PipeSt) (s : JobStatus) (p : Nat) :
    (updJob st s p).updates = st.updates ++ [⟨s, p⟩] := rfl

theorem pushTemp_job (st : PipeSt) (path : String) :
    (pushTemp st path).job = st.job := rfl

theorem pushTemp_updates (st : PipeSt) (path : String) :
    (pushTemp st path).updates = st.updates := rfl

/-- Equation form of `uploadHLS_preserves`. -/
theorem uploadHLS_eq_facts (env : EngineEnv) (st : PipeSt) (segs : List String)
    (pid : String) (st' : PipeSt) (r : Except String String)
    (h : uploadHLS env st segs pid = (st', r)) :
    st'.job = st.job ∧ st'.product = st.product
    ∧ st'.updates = st.updates ∧ st'.tempFiles = st.tempFiles := by
  have hp := uploadHLS_preserves env st segs pid
  rw [h] at hp
  exact hp

/-- Equation form of `s3UploadCall_preserves`. -/
theorem s3UploadCall_eq_facts (env : EngineEnv) (st : PipeSt)
    (prefx filename ct : String) (cc : Option String) (st' : PipeSt)
    (r : Except String String)
    (h : s3UploadCall env st prefx filename ct cc = (st', r)) :
    st'.job = st.job ∧ st'.product = st.product
    ∧ st'.updates = st.updates ∧ st'.tempFiles = st.tempFiles := by
  have hp := s3UploadCall_preserves env st prefx filename ct cc
  rw [h] at hp
  exact hp

/-- Shape of the tail of a delivery (steps 9-13), for any starting
context whose trace holds exactly the pre-upload checkpoints: the final
trace is a prefix of the spec's checkpoint trace, and the final job
record either completed or relates to the reference record as a
non-completed one. -/
theorem processUpload_shape (env : EngineEnv) (data : VideoDubbingJobData)
    (st : PipeSt) (dres : DownloadResult) (tr : WhisperTranscription) (tl : String)
    (enc : VideoEncodingResult) (jref : VideoDubbingJob)
    (hst : st.job.status ≠ JobStatus.COMPLETED)
    (hpr : st.job.progress ≠ 100)
    (hurl : st.job.dubbedVideoUrl = jref.dubbedVideoUrl)
    (hupd : st.updates = preUploadTrace data.options) :
    (∃ k, (processUpload env data st dres tr tl enc).updates
        = (specCheckpointTrace data.options).take k)
    ∧ jobShapeRel jref (processUpload env data st dres tr tl enc).job := by
  by_cases hh : boolTruthy data.options.generateHLS
  · -- HLS enabled
    rcases hhl : env.generateHLS with e | hls
    · -- the HLS engine fails
      simp only [processUpload, hh, hhl, if_true]
      exact shape_fail_leaf data.options jref _ e env.now2
        ((preUploadTrace data.options).length + 1)
        (by simp [updJob_job_status])
        (by simp [updJob_job_progress])
        (by simp [updJob_job_url, hurl])
        (by simp [updJob_updates, hupd, specCheckpointTrace_eq, List.take_append, hh])
    · -- the HLS engine succeeds; analyze the playlist/segment uploads
      rcases hu : uploadHLS env (updJob st JobStatus.GENERATING_HLS 85)
          hls.segmentPaths data.product1688Id with ⟨st2, r2⟩
      obtain ⟨h2j, h2p, h2u, h2t⟩ :=
        uploadHLS_eq_facts env _ hls.segmentPaths data.product1688Id st2 r2 hu
      have h2status : st2.job.status = JobStatus.GENERATING_HLS := by
        rw [h2j, updJob_job_status]
      have h2progress : st2.job.progress = 85 := by
        rw [h2j, updJob_job_progress]
      have h2url : st2.job.dubbedVideoUrl = jref.dubbedVideoUrl := by
        rw [h2j, updJob_job_url, hurl]
      have h2upd : st2.updates
          = (specCheckpointTrace data.options).take
            ((preUploadTrace data.options).length + 1) := by
        rw [h2u, updJob_updates, hupd, specCheckpointTrace_eq]
        simp [List.take_append, hh]
      simp only [processUpload, hh, hhl, if_true, hu]
      cases r2 with
      | error e =>
        exact shape_fail_leaf data.options jref st2 e env.now2
          ((preUploadTrace data.options).length + 1)
          (by simp [h2status]) (by simp [h2progress]) h2url h2upd
      | ok url =>
        rcases hth : env.generateThumbnail with e | th
        · simp only [hth]
          exact shape_fail_leaf data.options jref st2 e env.now2
            ((preUploadTrace data.options).length + 1)
            (by simp [h2status]) (by simp [h2progress]) h2url h2upd
        · simp only [hth]
          rcases hv : s3UploadCall env (updJob (pushTemp st2 th) JobStatus.UPLOADING 90)
              "videos/dubbed" (data.product1688Id ++ ".mp4") "video/mp4"
              (some "public, max-age=31536000") with ⟨st3, r3⟩
          obtain ⟨h3j, h3p, h3u, h3t⟩ := s3UploadCall_eq_facts env _ _ _ _ _ st3 r3 hv
          have h3status : st3.job.status = JobStatus.UPLOADING := by
            rw [h3j, updJob_job_status]
          have h3progress : st3.job.progress = 90 := by
            rw [h3j, updJob_job_progress]
          have h3url : st3.job.dubbedVideoUrl = jref.dubbedVideoUrl := by
            rw [h3j, updJob_job_url, pushTemp_job, h2url]
          have h3upd : st3.updates
              = (specCheckpointTrace data.options).take
                ((preUploadTrace data.options).length + 2) := by
            rw [h3u, updJob_updates, pushTemp_updates, h2u, updJob_updates, hupd,
              specCheckpointTrace_eq]
            simp [List.take_append, hh]
          cases r3 with
          | error e =>
            exact shape_fail_leaf data.options jref st3 e env.now2
              ((preUploadTrace data.options).length + 2)
              (by simp [h3status]) (by simp [h3progress]) h3url h3upd
          | ok dubbedUrl =>
            dsimp only
            rcases ht2 : s3UploadCall env st3 "videos/thumbnails"
                (data.product1688Id ++ ".jpg") "image/jpeg" none with ⟨st4, r4⟩
            obtain ⟨h4j, h4p, h4u, h4t⟩ :=
              s3UploadCall_eq_facts env _ _ _ _ _ st4 r4 ht2
            cases r4 with
            | error e =>
              exact shape_fail_leaf data.options jref st4 e env.now2
                ((preUploadTrace data.options).length + 2)
                (by simp [h4j, h3status]) (by simp [h4j, h3progress])
                (h4j ▸ h3url) (h4u ▸ h3upd)
            | ok thumbUrl =>
              constructor
              · refine ⟨(preUploadTrace data.options).length + 3, ?_⟩
                simp only [finishSuccess]
                rw [h4u, h3upd, specCheckpointTrace_eq]
                simp [List.take_append, hh, List.append_assoc,
                  specCheckpointTrace_eq]
              · refine Or.inl ⟨rfl, rfl, ?_⟩
                have := s3UploadCall_ok_ne_empty env _ _ _ _ _ st3 dubbedUrl hv
                simp [finishSuccess, strTruthy, this]
  · -- HLS disabled
    rcases hth : env.generateThumbnail with e | th
    · simp only [processUpload, hh, Bool.false_eq_true, if_false, hth]
      exact shape_fail_leaf data.options jref st e env.now2
        ((preUploadTrace data.options).length) hst hpr hurl
        (by rw [hupd, specCheckpointTrace_eq]
            simpa using (@List.take_append StatusUpdate (preUploadTrace data.options)
              ((if boolTruthy data.options.generateHLS then
                [(⟨JobStatus.GENERATING_HLS, 85⟩ : StatusUpdate)] else [])
              ++ [⟨JobStatus.UPLOADING, 90⟩, ⟨JobStatus.COMPLETED, 100⟩]) 0).symm)
    · simp only [processUpload, hh, Bool.false_eq_true, if_false, hth]
      rcases hv : s3UploadCall env (updJob (pushTemp st th) JobStatus.UPLOADING 90)
          "videos/dubbed" (data.product1688Id ++ ".mp4") "video/mp4"
          (some "public, max-age=31536000") with ⟨st3, r3⟩
      obtain ⟨h3j, h3p, h3u, h3t⟩ := s3UploadCall_eq_facts env _ _ _ _ _ st3 r3 hv
      have h3status : st3.job.status = JobStatus.UPLOADING := by
        rw [h3j, updJob_job_status]
      have h3progress : st3.job.progress = 90 := by
        rw [h3j, updJob_job_progress]
      have h3url : st3.job.dubbedVideoUrl = jref.dubbedVideoUrl := by
        rw [h3j, updJob_job_url, pushTemp_job, hurl]
      have h3upd : st3.updates
          = (specCheckpointTrace data.options).take
            ((preUploadTrace data.options).length + 1) := by
        rw [h3u, updJob_updates, pushTemp_updates, hupd, specCheckpointTrace_eq]
        simp [List.take_append, hh]
      cases r3 with
      | error e =>
        exact shape_fail_leaf data.options jref st3 e env.now2
          ((preUploadTrace data.options).length + 1)
          (by simp [h3status]) (by simp [h3progress]) h3url h3upd
      | ok dubbedUrl =>
        dsimp only
        rcases ht2 : s3UploadCall env st3 "videos/thumbnails"
            (data.product1688Id ++ ".jpg") "image/jpeg" none with ⟨st4, r4⟩
        obtain ⟨h4j, h4p, h4u, h4t⟩ := s3UploadCall_eq_facts env _ _ _ _ _ st4 r4 ht2
        cases r4 with
        | error e =>
          exact shape_fail_leaf data.options jref st4 e env.now2
            ((preUploadTrace data.options).length + 1)
            (by simp [h4j, h3status]) (by simp [h4j, h3progress])
            (h4j ▸ h3url) (h4u ▸ h3upd)
        | ok thumbUrl =>
          constructor
          · refine ⟨(preUploadTrace data.options).length + 2, ?_⟩
            simp only [finishSuccess]
            rw [h4u, h3upd, specCheckpointTrace_eq]
            simp [List.take_append, hh, List.append_assoc, specCheckpointTrace_eq]
          · refine Or.inl ⟨rfl, rfl, ?_⟩
            have := s3UploadCall_ok_ne_empty env _ _ _ _ _ st3 dubbedUrl hv
            simp [finishSuccess, strTruthy, this]

/-- The checkpoint writes of steps 1-3 (everything before TRANSCRIBING). -/
def preTranscribeTrace (options : VideoProcessingOptions) : List StatusUpdate :=
  [⟨JobStatus.DOWNLOADING, 0⟩, ⟨JobStatus.DOWNLOADING, 10⟩,
   ⟨ JobStatus.EXTRACTING_AUDIO, 20⟩]
  ++ (if boolTruthy options.keepBGM then [⟨ JobStatus.SEPARATING_AUDIO, 25⟩] else [])

theorem preUploadTrace_eq (options : VideoProcessingOptions) :
    preUploadTrace options = preTranscribeTrace options
      ++ [⟨JobStatus.TRANSCRIBING, 30⟩, ⟨JobStatus.TRANSLATING, 50⟩,
          ⟨JobStatus.GENERATING_VOICE, 60⟩, ⟨ JobStatus.MIXING_AUDIO, 70⟩,
          ⟨JobStatus.ENCODING_VIDEO, 80⟩] := by
  simp [preUploadTrace, preTranscribeTrace, List.append_assoc]

theorem specCheckpointTrace_eq2 (options : VideoProcessingOptions) :
    specCheckpointTrace options = preTranscribeTrace options
      ++ ([⟨JobStatus.TRANSCRIBING, 30⟩, ⟨JobStatus.TRANSLATING, 50⟩,
          ⟨JobStatus.GENERATING_VOICE, 60⟩, ⟨ JobStatus.MIXING_AUDIO, 70⟩,
          ⟨JobStatus.ENCODING_VIDEO, 80⟩]
        ++ ((if boolTruthy options.generateHLS then [⟨JobStatus.GENERATING_HLS, 85⟩] else [])
          ++ [⟨JobStatus.UPLOADING, 90⟩, ⟨JobStatus.COMPLETED, 100⟩])) := by
  simp [specCheckpointTrace, preTranscribeTrace, List.append_assoc]

theorem updJobStarted_job_status (st : PipeSt) (s : JobStatus) (p now : Nat) :
    (updJobStarted st s p now).job.status = s := rfl

theorem updJobStarted_job_progress (st : PipeSt) (s : JobStatus) (p now : Nat) :
    (updJobStarted st s p now).job.progress = p := rfl

theorem updJobStarted_job_url (st : PipeSt) (s : JobStatus) (p now : Nat) :
    (updJobStarted st s p now).job.dubbedVideoUrl = st.job.dubbedVideoUrl := rfl

theorem updJobStarted_updates (st : PipeSt) (s : JobStatus) (p now : Nat) :
    (updJobStarted st s p now).updates = st.updates ++ [⟨s, p⟩] := rfl

theorem updProduct_job (st : PipeSt) (v : VideoStatus) :
    (updProduct st v).job = st.job := rfl

theorem updProduct_updates (st : PipeSt) (v : VideoStatus) :
    (updProduct st v).updates = st.updates := rfl

/-- Shape of steps 4-13, for any starting context whose trace holds
exactly the pre-transcription checkpoints. -/
theorem processTranscribe_shape (env : EngineEnv) (data : VideoDubbingJobData)
    (st : PipeSt) (dres : DownloadResult) (jref : VideoDubbingJob)
    (hst : st.job.status ≠ JobStatus.COMPLETED)
    (hpr : st.job.progress ≠ 100)
    (hurl : st.job.dubbedVideoUrl = jref.dubbedVideoUrl)
    (hupd : st.updates = preTranscribeTrace data.options) :
    (∃ k, (processTranscribe env data st dres).updates
        = (specCheckpointTrace data.options).take k)
    ∧ jobShapeRel jref (processTranscribe env data st dres).job := by
  rcases htr : env.transcribe with e | tr
  · simp only [processTranscribe, htr]
    exact shape_fail_leaf data.options jref _ e env.now2
      ((preTranscribeTrace data.options).length + 1)
      (by simp [updJob_job_status])
      (by simp [updJob_job_progress])
      (by simp [updJob_job_url, hurl])
      (by simp [updJob_updates, hupd, specCheckpointTrace_eq2, List.take_append])
  rcases htl : env.translateText with e | tl
  · simp only [processTranscribe, htr, htl]
    exact shape_fail_leaf data.options jref _ e env.now2
      ((preTranscribeTrace data.options).length + 2)
      (by simp [updJob_job_status])
      (by simp [updJob_job_progress])
      (by simp [updJob_job_url, hurl])
      (by simp [updJob_updates, hupd, specCheckpointTrace_eq2, List.take_append,
        List.append_assoc])
  rcases hts : env.synthesize with e | tts
  · simp only [processTranscribe, htr, htl, hts]
    exact shape_fail_leaf data.options jref _ e env.now2
      ((preTranscribeTrace data.options).length + 3)
      (by simp [updJob_job_status])
      (by simp [updJob_job_progress])
      (by simp [updJob_job_url, hurl])
      (by simp [updJob_updates, hupd, specCheckpointTrace_eq2, List.take_append,
        List.append_assoc])
  rcases hmx : env.mixAudio with e | mx
  · simp only [processTranscribe, htr, htl, hts, hmx]
    exact shape_fail_leaf data.options jref _ e env.now2
      ((preTranscribeTrace data.options).length + 4)
      (by simp [updJob_job_status, pushTemp_job])
      (by simp [updJob_job_progress, pushTemp_job])
      (by simp [updJob_job_url, pushTemp_job, hurl])
      (by simp [updJob_updates, pushTemp_updates, hupd, specCheckpointTrace_eq2,
        List.take_append, List.append_assoc])
  rcases hen : env.replaceAudio with e | enc
  · simp only [processTranscribe, htr, htl, hts, hmx, hen]
    exact shape_fail_leaf data.options jref _ e env.now2
      ((preTranscribeTrace data.options).length + 5)
      (by simp [updJob_job_status, pushTemp_job])
      (by simp [updJob_job_progress, pushTemp_job])
      (by simp [updJob_job_url, pushTemp_job, hurl])
      (by simp [updJob_updates, pushTemp_updates, hupd, specCheckpointTrace_eq2,
        List.take_append, List.append_assoc])
  · simp only [processTranscribe, htr, htl, hts, hmx, hen]
    exact processUpload_shape env data _ dres tr tl enc jref
      (by simp [updJob_job_status, pushTemp_job])
      (by simp [updJob_job_progress, pushTemp_job])
      (by simp [updJob_job_url, pushTemp_job, hurl])
      (by simp [updJob_updates, pushTemp_updates, hupd, preUploadTrace_eq,
        List.append_assoc])

/-- Shape of one whole delivery: the persisted trace is always a prefix
of the spec's checkpoint trace, and the final job record either completed
(progress 100, non-empty dubbed URL) or did not complete (status not
COMPLETED, progress not 100, dubbed URL untouched). -/
theorem process_shape (env : EngineEnv) (data : VideoDubbingJobData)
    (j : VideoDubbingJob) (p : Product1688) :
    (∃ k, (process env data j p).updates = (specCheckpointTrace data.options).take k)
    ∧ jobShapeRel j (process env data j p).job := by
  rcases hdl : env.download with e | d
  · simp only [process, hdl]
    exact shape_fail_leaf data.options j _ e env.now2 2
      (by simp [updJob_job_status])
      (by simp [updJob_job_progress])
      (by simp [updJob_job_url, updProduct_job, updJobStarted_job_url])
      (by simp [updJob_updates, updProduct_updates, updJobStarted_updates,
        specCheckpointTrace])
  rcases hea : env.extractAudio with e | a
  · simp only [process, hdl, hea]
    exact shape_fail_leaf data.options j _ e env.now2 3
      (by simp [updJob_job_status])
      (by simp [updJob_job_progress])
      (by simp [updJob_job_url, pushTemp_job, updProduct_job, updJobStarted_job_url])
      (by simp [updJob_updates, pushTemp_updates, updProduct_updates,
        updJobStarted_updates, specCheckpointTrace])
  by_cases hk : boolTruthy data.options.keepBGM
  · rcases hsp : env.separateAudio with e | sep
    · simp only [process, hdl, hea, hk, if_true, hsp]
      exact shape_fail_leaf data.options j _ e env.now2 4
        (by simp [updJob_job_status])
        (by simp [updJob_job_progress])
        (by simp [updJob_job_url, pushTemp_job, updProduct_job, updJobStarted_job_url])
        (by simp [updJob_updates, pushTemp_updates, updProduct_updates,
          updJobStarted_updates, specCheckpointTrace, hk])
    · simp only [process, hdl, hea, hk, if_true, hsp]
      exact processTranscribe_shape env data _ d j
        (by simp [updJob_job_status, pushTemp_job])
        (by simp [updJob_job_progress, pushTemp_job])
        (by simp [updJob_job_url, pushTemp_job, updProduct_job, updJobStarted_job_url])
        (by simp [updJob_updates, pushTemp_updates, updProduct_updates,
          updJobStarted_updates, preTranscribeTrace, hk])
  · simp only [process, hdl, hea, hk, Bool.false_eq_true, if_false]
    exact processTranscribe_shape env data _ d j
      (by simp [updJob_job_status, pushTemp_job])
      (by simp [updJob_job_progress, pushTemp_job])
      (by simp [updJob_job_url, pushTemp_job, updProduct_job, updJobStarted_job_url])
      (by simp [updJob_updates, pushTemp_updates, updProduct_updates,
        updJobStarted_updates, preTranscribeTrace, hk])

/-! Concrete fixtures used by witnesses and counterexamples. -/

def demoDownloadResult : DownloadResult :=
  { filePath := "dl.mp4", duration := 42, size := 1000, resolution := "1280x720" }

def demoAudioResult : AudioExtractionResult := { audioPath := "audio.wav" }

def demoSepResult : AudioSeparationResult :=
  { voicePath := "voice.wav", musicPath := some "music.wav" }

def demoTranscription : WhisperTranscription := { text := "nihao", segments := [] }

def demoTTS : TTSResult := { audioPath := "tts.wav" }

def demoEncoding : VideoEncodingResult :=
  { videoPath := "enc.mp4", resolution := "1280x720", size := 900, format := "mp4" }

def demoHLS : HLSTranscodingResult :=
  { playlistPath := "hls/playlist.m3u8", segmentPaths := ["hls/seg0.ts", "hls/seg1.ts"] }

/-- An environment in which every engine call and upload succeeds. -/
def demoEnvOk : EngineEnv :=
  { download := Except.ok demoDownloadResult
    extractAudio := Except.ok demoAudioResult
    separateAudio := Except.ok demoSepResult
    transcribe := Except.ok demoTranscription
    translateText := Except.ok "xin chao"
    synthesize := Except.ok demoTTS
    mixAudio := Except.ok "mixed.wav"
    replaceAudio := Except.ok demoEncoding
    generateHLS := Except.ok demoHLS
    generateThumbnail := Except.ok "thumb.jpg"
    nonce := fun i => (1000 + i, "rnd")
    uploadOk := fun _ => true
    s3cfg := { publicUrl := some "https://cdn.example" }
    now := 100
    now2 := 7300 }

/-- Same environment with a different wall clock / random draw for the
object-store key generation. -/
def demoEnvOk2 : EngineEnv := { demoEnvOk with nonce := fun i => (2000 + i, "zzz") }

/-- Same environment but the transcription engine fails on every call of
this attempt. -/
def demoEnvFailTranscribe : EngineEnv :=
  { demoEnvOk with transcribe := Except.error "Transcription failed" }

def demoProduct : Product1688 :=
  { id := "p1", originalVideoUrl := some "https://videos.example/orig.mp4" }

/-- The job record Submit creates for `demoProduct` (Prisma defaults:
retryCount 0, maxRetries 3). -/
def demoJob : VideoDubbingJob :=
  { id := "job1", product1688Id := "p1"
    originalVideoUrl := "https://videos.example/orig.mp4"
    status := JobStatus.QUEUED, progress := 0 }

def demoData : VideoDubbingJobData :=
  { jobId := "job1", product1688Id := "p1"
    originalVideoUrl := "https://videos.example/orig.mp4"
    options := resolveOptions none }

def demoDataBGM : VideoDubbingJobData :=
  { demoData with options := resolveOptions (some { keepBGM := some true }) }

def demoDataHLS : VideoDubbingJobData :=
  { demoData with options := resolveOptions (some { generateHLS := some true }) }

/-- C4.  For a job submitted with keepBGM=false and generateHLS=false that
completes with no stage error, the persisted status sequence (the QUEUED
creation write followed by the delivery's writes) is exactly
QUEUED→DOWNLOADING→EXTRACTING_AUDIO→TRANSCRIBING→TRANSLATING→
GENERATING_VOICE→MIXING_AUDIO→ENCODING_VIDEO→UPLOADING→COMPLETED with the
fixed checkpoint percentages 0,10,20,30,50,60,70,80,90,100;
SEPARATING_AUDIO(25) appears in the trace exactly when keepBGM is truthy
and GENERATING_HLS(85) exactly when generateHLS is truthy; and for every
configuration the write trace equals the fixed checkpoint list, so stages
are never reordered or deferred. -/
theorem pipeline_status_sequence (env : EngineEnv) (data : VideoDubbingJobData)
    (j : VideoDubbingJob) (p : Product1688)
    (d : DownloadResult) (a : AudioExtractionResult) (sep : AudioSeparationResult)
    (tr : WhisperTranscription) (tl : String) (tts : TTSResult) (mx : String)
    (enc : VideoEncodingResult) (hls : HLSTranscodingResult) (th : String)
    (hdl : env.download = Except.ok d)
    (hea : env.extractAudio = Except.ok a)
    (hsp : env.separateAudio = Except.ok sep)
    (htr : env.transcribe = Except.ok tr)
    (htl : env.translateText = Except.ok tl)
    (hts : env.synthesize = Except.ok tts)
    (hmx : env.mixAudio = Except.ok mx)
    (hen : env.replaceAudio = Except.ok enc)
    (hhl : env.generateHLS = Except.ok hls)
    (hth : env.generateThumbnail = Except.ok th)
    (hup : ∀ i, env.uploadOk i = true) :
    (process env data j p).updates = specCheckpointTrace data.options
    ∧ (boolTruthy data.options.keepBGM = false →
       boolTruthy data.options.generateHLS = false →
        dedupConsec (List.map StatusUpdate.status
          (⟨JobStatus.QUEUED, 0⟩ :: (process env data j p).updates)) = claimStatusSequence
        ∧ dedupConsec (List.map StatusUpdate.progress
          (⟨JobStatus.QUEUED, 0⟩ :: (process env data j p).updates)) = claimProgressSequence)
    ∧ ( JobStatus.SEPARATING_AUDIO ∈ List.map StatusUpdate.status (process env data j p).updates
        ↔ boolTruthy data.options.keepBGM = true)
    ∧ (JobStatus.GENERATING_HLS ∈ List.map StatusUpdate.status (process env data j p).updates
        ↔ boolTruthy data.options.generateHLS = true) := by
  have heq := process_ok_spec env data j p d a sep tr tl tts mx enc hls th
    hdl hea hsp htr htl hts hmx hen hhl hth hup
  rw [heq]
  refine ⟨by simp [okProcessResult], ?_, ?_, ?_⟩
  · intro h1 h2
    constructor <;>
      simp [okProcessResult, specCheckpointTrace, h1, h2, dedupConsec,
        claimStatusSequence, claimProgressSequence]
  · by_cases hkk : boolTruthy data.options.keepBGM <;>
    by_cases hhh : boolTruthy data.options.generateHLS <;>
      simp [okProcessResult, specCheckpointTrace, hkk, hhh]
  · by_cases hkk : boolTruthy data.options.keepBGM <;>
    by_cases hhh : boolTruthy data.options.generateHLS <;>
      simp [okProcessResult, specCheckpointTrace, hkk, hhh]

/-- Witness for C4 at a concrete all-success run. -/
theorem pipeline_status_sequence_witness :
    (process demoEnvOk demoData demoJob demoProduct).updates
      = specCheckpointTrace demoData.options
    ∧ (boolTruthy demoData.options.keepBGM = false →
       boolTruthy demoData.options.generateHLS = false →
        dedupConsec (List.map StatusUpdate.status
          (⟨JobStatus.QUEUED, 0⟩ :: (process demoEnvOk demoData demoJob demoProduct).updates))
          = claimStatusSequence
        ∧ dedupConsec (List.map StatusUpdate.progress
          (⟨JobStatus.QUEUED, 0⟩ :: (process demoEnvOk demoData demoJob demoProduct).updates))
          = claimProgressSequence)
    ∧ ( JobStatus.SEPARATING_AUDIO ∈ List.map StatusUpdate.status
        (process demoEnvOk demoData demoJob demoProduct).updates
        ↔ boolTruthy demoData.options.keepBGM = true)
    ∧ (JobStatus.GENERATING_HLS ∈ List.map StatusUpdate.status
        (process demoEnvOk demoData demoJob demoProduct).updates
        ↔ boolTruthy demoData.options.generateHLS = true) :=
  pipeline_status_sequence demoEnvOk demoData demoJob demoProduct
    demoDownloadResult demoAudioResult demoSepResult demoTranscription "xin chao"
    demoTTS "mixed.wav" demoEncoding demoHLS "thumb.jpg"
    rfl rfl rfl rfl rfl rfl rfl rfl rfl rfl (fun _ => rfl)

/-- C9 counterexample.  The claim says the object-store key of an upload
is a deterministic function of the source id and the asset kind.  Two
all-success runs for the same source and the same asset kinds, differing
only in the wall clock / random draws `generateKey` consumes, produce
different keys for every asset (`generateKey` embeds `Date.now()` and a
`Math.random()` string, and does not embed the source id at all). -/
theorem upload_key_not_deterministic :
    List.map UploadCall.key (process demoEnvOk demoData demoJob demoProduct).uploads
      = ["videos/dubbed/1000-rnd.mp4", "videos/thumbnails/1001-rnd.jpg"]
    ∧ List.map UploadCall.key (process demoEnvOk2 demoData demoJob demoProduct).uploads
      = ["videos/dubbed/2000-zzz.mp4", "videos/thumbnails/2001-zzz.jpg"]
    ∧ ("videos/dubbed/1000-rnd.mp4" = "videos/dubbed/2000-zzz.mp4") = False := by
  refine ⟨by decide, by decide, by decide⟩

/-- C9 (amended).  During UPLOADING each asset is uploaded under a key
`generateKey prefix filename timestamp random` whose prefix and filename
extension are fixed per asset kind (`videos/dubbed/…mp4` for the dubbed
video, `videos/thumbnails/…jpg` for the thumbnail, `videos/hls/…` for HLS
playlist and segments) but which embeds the current timestamp and a
random string, so the key is not determined by source id and asset kind;
the content type (`video/mp4`, `image/jpeg`,
`application/vnd.apple.mpegurl`, `video/mp2t`) and the Cache-Control
header (set only for the dubbed video) are fixed per asset kind. -/
theorem upload_keys_and_headers (env : EngineEnv) (data : VideoDubbingJobData)
    (j : VideoDubbingJob) (p : Product1688)
    (d : DownloadResult) (a : AudioExtractionResult) (sep : AudioSeparationResult)
    (tr : WhisperTranscription) (tl : String) (tts : TTSResult) (mx : String)
    (enc : VideoEncodingResult) (hls : HLSTranscodingResult) (th : String)
    (hdl : env.download = Except.ok d)
    (hea : env.extractAudio = Except.ok a)
    (hsp : env.separateAudio = Except.ok sep)
    (htr : env.transcribe = Except.ok tr)
    (htl : env.translateText = Except.ok tl)
    (hts : env.synthesize = Except.ok tts)
    (hmx : env.mixAudio = Except.ok mx)
    (hen : env.replaceAudio = Except.ok enc)
    (hhl : env.generateHLS = Except.ok hls)
    (hth : env.generateThumbnail = Except.ok th)
    (hup : ∀ i, env.uploadOk i = true) :
    (process env data j p).uploads =
      (if boolTruthy data.options.generateHLS then
        ⟨generateKey "videos/hls" (data.product1688Id ++ "/playlist.m3u8")
            (env.nonce 0).1 (env.nonce 0).2,
          "application/vnd.apple.mpegurl", none⟩
          :: expectedSegUploads env data.product1688Id hls.segmentPaths 1
      else [])
      ++ [⟨generateKey "videos/dubbed" (data.product1688Id ++ ".mp4")
            (env.nonce (if boolTruthy data.options.generateHLS then
              1 + hls.segmentPaths.length else 0)).1
            (env.nonce (if boolTruthy data.options.generateHLS then
              1 + hls.segmentPaths.length else 0)).2,
          "video/mp4", some "public, max-age=31536000"⟩,
          ⟨generateKey "videos/thumbnails" (data.product1688Id ++ ".jpg")
            (env.nonce ((if boolTruthy data.options.generateHLS then
              1 + hls.segmentPaths.length else 0) + 1)).1
            (env.nonce ((if boolTruthy data.options.generateHLS then
              1 + hls.segmentPaths.length else 0) + 1)).2,
          "image/jpeg", none⟩] := by
  have heq := process_ok_spec env data j p d a sep tr tl tts mx enc hls th
    hdl hea hsp htr htl hts hmx hen hhl hth hup
  rw [heq]
  by_cases hhh : boolTruthy data.options.generateHLS <;>
    simp [okProcessResult, hhh]

/-- Witness for C9's amended statement at a concrete all-success run with
HLS enabled. -/
theorem upload_keys_and_headers_witness :
    (process demoEnvOk demoDataHLS demoJob demoProduct).uploads =
      (if boolTruthy demoDataHLS.options.generateHLS then
        ⟨generateKey "videos/hls" (demoDataHLS.product1688Id ++ "/playlist.m3u8")
            (demoEnvOk.nonce 0).1 (demoEnvOk.nonce 0).2,
          "application/vnd.apple.mpegurl", none⟩
          :: expectedSegUploads demoEnvOk demoDataHLS.product1688Id demoHLS.segmentPaths 1
      else [])
      ++ [⟨generateKey "videos/dubbed" (demoDataHLS.product1688Id ++ ".mp4")
            (demoEnvOk.nonce (if boolTruthy demoDataHLS.options.generateHLS then
              1 + demoHLS.segmentPaths.length else 0)).1
            (demoEnvOk.nonce (if boolTruthy demoDataHLS.options.generateHLS then
              1 + demoHLS.segmentPaths.length else 0)).2,
          "video/mp4", some "public, max-age=31536000"⟩,
          ⟨generateKey "videos/thumbnails" (demoDataHLS.product1688Id ++ ".jpg")
            (demoEnvOk.nonce ((if boolTruthy demoDataHLS.options.generateHLS then
              1 + demoHLS.segmentPaths.length else 0) + 1)).1
            (demoEnvOk.nonce ((if boolTruthy demoDataHLS.options.generateHLS then
              1 + demoHLS.segmentPaths.length else 0) + 1)).2,
          "image/jpeg", none⟩] :=
  upload_keys_and_headers demoEnvOk demoDataHLS demoJob demoProduct
    demoDownloadResult demoAudioResult demoSepResult demoTranscription "xin chao"
    demoTTS "mixed.wav" demoEncoding demoHLS "thumb.jpg"
    rfl rfl rfl rfl rfl rfl rfl rfl rfl rfl (fun _ => rfl)

/-- C3 counterexample.  An automatic-retry redelivery restarts the whole
pipeline from DOWNLOADING: after an attempt fails at TRANSCRIBING with
the job at progress 30 (status TRANSCRIBING — non-terminal) and no manual
Retry in between, the redelivered attempt's first persisted write is
(DOWNLOADING, 0), so across the two attempts' persisted writes the
progress sequence 0,10,20,30,0,10,20,30 decreases while the job is
non-terminal. -/
theorem progress_decreases_across_redelivery :
    (process demoEnvFailTranscribe demoData demoJob demoProduct).rethrown
      = some "Transcription failed"
    ∧ (process demoEnvFailTranscribe demoData demoJob demoProduct).job.status
      = JobStatus.TRANSCRIBING
    ∧ (process demoEnvFailTranscribe demoData demoJob demoProduct).job.progress = 30
    ∧ List.map StatusUpdate.progress
        ((process demoEnvFailTranscribe demoData demoJob demoProduct).updates
          ++ (process demoEnvFailTranscribe demoData
              (process demoEnvFailTranscribe demoData demoJob demoProduct).job
              (process demoEnvFailTranscribe demoData demoJob demoProduct).product).updates)
        = [0, 10, 20, 30, 0, 10, 20, 30]
    ∧ nonDecreasing [0, 10, 20, 30, 0, 10, 20, 30] = false := by
  refine ⟨by decide, by decide, by decide, by decide, by decide⟩

/-- A non-decreasing list of naturals stays non-decreasing under `take`. -/
theorem nonDecreasing_take :
    ∀ (l : List Nat), nonDecreasing l = true →
      ∀ (k : Nat), nonDecreasing (l.take k) = true := by
  intro l
  induction l with
  | nil => intro h k; simp [nonDecreasing]
  | cons a rest ih =>
    intro h k
    cases k with
    | zero => simp [nonDecreasing]
    | succ k' =>
      cases rest with
      | nil => cases k' <;> simp [nonDecreasing]
      | cons b r' =>
        have hab : a ≤ b := by
          simp [nonDecreasing] at h
          exact h.1
        have hrest : nonDecreasing (b :: r') = true := by
          simp [nonDecreasing] at h
          simp [nonDecreasing, h.2]
        cases k' with
        | zero => simp [nonDecreasing, List.take]
        | succ k'' =>
          have htail := ih hrest (k'' + 1)
          simp [List.take] at htail
          simp [List.take, nonDecreasing, hab, htail]

/-- The progress column of the spec's checkpoint trace is non-decreasing
for every configuration. -/
theorem specTrace_progress_nonDecreasing (options : VideoProcessingOptions) :
    nonDecreasing (List.map StatusUpdate.progress (specCheckpointTrace options)) = true := by
  by_cases hk : boolTruthy options.keepBGM <;>
  by_cases hh : boolTruthy options.generateHLS <;>
    simp [specCheckpointTrace, hk, hh] <;> decide

/-- C3 (amended).  Within one delivery attempt the persisted progress
writes are non-decreasing; but an automatic-retry redelivery restarts the
whole pipeline, so its first write resets progress to 0 and the sequence
of persisted writes across attempts can decrease while the job is
non-terminal even without a manual Retry (see the counterexample
`progress_decreases_across_redelivery`). -/
theorem progress_nonDecreasing_within_attempt (env : EngineEnv)
    (data : VideoDubbingJobData) (j : VideoDubbingJob) (p : Product1688) :
    nonDecreasing (List.map StatusUpdate.progress (process env data j p).updates) = true := by
  obtain ⟨⟨k, hk⟩, _⟩ := process_shape env data j p
  rw [hk, List.map_take]
  exact nonDecreasing_take _ (specTrace_progress_nonDecreasing data.options) k

/-- C8 (evaluation of the code at the failing inputs).  On both the
success path and the failure path, `cleanup` receives exactly the
accumulated `tempFiles`; but the separated voice/music tracks (keepBGM)
and the HLS playlist/segment working files (generateHLS) are never pushed
onto `tempFiles`, so they are never passed to deletion, contradicting the
claim that every accumulated temporary artifact is. -/
theorem temp_artifacts_cleanup_gap :
    (process demoEnvOk demoDataBGM demoJob demoProduct).rethrown = none
    ∧ (process demoEnvOk demoDataBGM demoJob demoProduct).cleaned
        = ["dl.mp4", "audio.wav", "tts.wav", "mixed.wav", "enc.mp4", "thumb.jpg"]
    ∧ "voice.wav" ∉ (process demoEnvOk demoDataBGM demoJob demoProduct).cleaned
    ∧ "music.wav" ∉ (process demoEnvOk demoDataBGM demoJob demoProduct).cleaned
    ∧ (process demoEnvOk demoDataHLS demoJob demoProduct).rethrown = none
    ∧ "hls/playlist.m3u8" ∉ (process demoEnvOk demoDataHLS demoJob demoProduct).cleaned
    ∧ "hls/seg0.ts" ∉ (process demoEnvOk demoDataHLS demoJob demoProduct).cleaned
    ∧ (process demoEnvFailTranscribe demoData demoJob demoProduct).cleaned
        = (process demoEnvFailTranscribe demoData demoJob demoProduct).tempFiles
    ∧ (process demoEnvFailTranscribe demoData demoJob demoProduct).cleaned
        = ["dl.mp4", "audio.wav"] := by
  refine ⟨by decide, by decide, by decide, by decide, by decide, by decide, by decide,
    by decide, by decide⟩

instance exceptDecEq {e a : Type} [DecidableEq e] [DecidableEq a] :
    DecidableEq (Except e a) := fun x y =>
  match x, y with
  | Except.ok u, Except.ok v =>
    if h : u = v then isTrue (by rw [h])
    else isFalse (fun hh => h (by injection hh))
  | Except.error u, Except.error v =>
    if h : u = v then isTrue (by rw [h])
    else isFalse (fun hh => h (by injection hh))
  | Except.ok _, Except.error _ => isFalse (fun hh => Except.noConfusion hh)
  | Except.error _, Except.ok _ => isFalse (fun hh => Except.noConfusion hh)

/-- The effects a successful Submit for `demoProduct` produces. -/
def demoSubmitEffects : SubmitEffects :=
  { job := demoJob
    product := { demoProduct with videoStatus := some VideoStatus.QUEUED }
    queued :=
      { name := "dub-video"
        data := demoData
        opts :=
          { attempts := 3
            backoffType := some "exponential"
            backoffDelay := some 5000
            removeOnComplete := some false
            removeOnFail := some false } }
    response :=
      { jobId := "job1", status := "QUEUED", estimatedTime := 300
        message := "Video processing job queued successfully" } }

/-- C1 (evaluation of the code at the failing input).  Submit enqueues the
job with 3 delivery attempts; a stage error on every one of the 3
deliveries leaves the job record with retryCount==3 but with its last
checkpoint status TRANSCRIBING — not FAILED — and the product's mirrored
status still PROCESSING, because `handleError` only marks FAILED when a
further failure arrives with `retryCount >= maxRetries`, which under 3
delivery attempts would require a 4th delivery that BullMQ never makes
(as the last conjunct shows, a hypothetical 4th failure would mark
FAILED). -/
theorem three_failures_leave_job_unfinished :
    queueVideoProcessing "p1" (some demoProduct) none "job1" = Except.ok demoSubmitEffects
    ∧ demoSubmitEffects.queued.opts.attempts = 3
    ∧ demoSubmitEffects.job = demoJob
    ∧ demoSubmitEffects.queued.data = demoData
    ∧ demoJob.retryCount = 0 ∧ demoJob.maxRetries = 3
    ∧ (deliverAttempts demoEnvFailTranscribe demoData 3 demoJob demoProduct).1.retryCount = 3
    ∧ (deliverAttempts demoEnvFailTranscribe demoData 3 demoJob demoProduct).1.status
        = JobStatus.TRANSCRIBING
    ∧ ¬ (deliverAttempts demoEnvFailTranscribe demoData 3 demoJob demoProduct).1.status
        = JobStatus.FAILED
    ∧ (deliverAttempts demoEnvFailTranscribe demoData 3 demoJob demoProduct).2.videoStatus
        = some VideoStatus.PROCESSING
    ∧ (deliverAttempts demoEnvFailTranscribe demoData 3 demoJob demoProduct).1.errorMessage
        = some "Transcription failed"
    ∧ (deliverAttempts demoEnvFailTranscribe demoData 4 demoJob demoProduct).1.status
        = JobStatus.FAILED := by
  refine ⟨by decide, by decide, by decide, by decide, by decide, by decide, by decide,
    by decide, by decide, by decide, by decide, by decide⟩

/-- Whether a submit result is a thrown `NotFoundException`. -/
def submitErrIsNotFound (r : Except ServiceError SubmitEffects) : Bool :=
  match r with
  | Except.error err => err.isNotFound
  | Except.ok _ => false

def demoProductNoUrl : Product1688 := { id := "p1" }

/-- C5 counterexample.  The claim says Submit fails with NotFound when the
source entity exists but lacks a source video reference; the code throws
`BadRequestException('Product does not have a video URL')` there, not a
NotFoundException. -/
theorem submit_missing_video_not_notFound :
    queueVideoProcessing "p1" (some demoProductNoUrl) none "job1"
      = Except.error (ServiceError.badRequest "Product does not have a video URL")
    ∧ submitErrIsNotFound
        (queueVideoProcessing "p1" (some demoProductNoUrl) none "job1") = false := by
  refine ⟨by decide, by decide⟩

/-- C5 (amended).  Submit(sourceId, options) fails with NotFound when the
source entity does not exist, fails with BadRequest (a validation error)
when it exists but lacks a source video reference, fails with Conflict
when the mirrored status is PROCESSING or QUEUED, and on every failure
path the exception is thrown before the job creation and the enqueue (an
`Except.error` result carries no effects); otherwise it creates the job
(status QUEUED, progress 0), mirrors QUEUED onto the product, and
enqueues one work item with 3 attempts and exponential backoff from
5000 ms. -/
theorem submit_admission_checks (pid jid : String)
    (opts : Option VideoProcessingOptions) :
    (queueVideoProcessing pid none opts jid
      = Except.error (ServiceError.notFound
          ("Product1688 with ID " ++ pid ++ " not found")))
    ∧ (∀ prod : Product1688, strTruthy prod.originalVideoUrl = false →
        queueVideoProcessing pid (some prod) opts jid
          = Except.error (ServiceError.badRequest "Product does not have a video URL"))
    ∧ (∀ prod : Product1688, strTruthy prod.originalVideoUrl = true →
        (prod.videoStatus = some VideoStatus.PROCESSING
          ∨ prod.videoStatus = some VideoStatus.QUEUED) →
        queueVideoProcessing pid (some prod) opts jid
          = Except.error (ServiceError.conflict "Video is already being processed"))
    ∧ (∀ prod : Product1688, strTruthy prod.originalVideoUrl = true →
        ¬(prod.videoStatus = some VideoStatus.PROCESSING
          ∨ prod.videoStatus = some VideoStatus.QUEUED) →
        ∃ eff : SubmitEffects,
          queueVideoProcessing pid (some prod) opts jid = Except.ok eff
          ∧ eff.job.status = JobStatus.QUEUED
          ∧ eff.job.progress = 0
          ∧ eff.job.id = jid
          ∧ eff.product = { prod with videoStatus := some VideoStatus.QUEUED }
          ∧ eff.queued.name = "dub-video"
          ∧ eff.queued.opts =
              { attempts := 3, backoffType := some "exponential",
                backoffDelay := some 5000, removeOnComplete := some false,
                removeOnFail := some false }
          ∧ eff.response.status = "QUEUED"
          ∧ eff.response.estimatedTime = 300) := by
  refine ⟨rfl, ?_, ?_, ?_⟩
  · intro prod h
    simp [queueVideoProcessing, h]
  · intro prod h1 h2
    simp [queueVideoProcessing, h1, h2]
  · intro prod h1 h2
    refine
      ⟨{ job :=
          { id := jid
            product1688Id := pid
            originalVideoUrl := prod.originalVideoUrl.getD ""
            sourceLang := "zh"
            targetLang := orDefaultStr (opts.bind (fun o => o.targetLang)) "vi"
            options := opts.getD {}
            status := JobStatus.QUEUED
            progress := 0 }
         product := { prod with videoStatus := some VideoStatus.QUEUED }
         queued :=
          { name := "dub-video"
            data :=
              { jobId := jid
                product1688Id := pid
                originalVideoUrl := prod.originalVideoUrl.getD ""
                options := resolveOptions opts }
            opts :=
              { attempts := 3
                backoffType := some "exponential"
                backoffDelay := some 5000
                removeOnComplete := some false
                removeOnFail := some false } }
         response :=
          { jobId := jid
            status := "QUEUED"
            estimatedTime := 300
            message := "Video processing job queued successfully" } },
        ?_, rfl, rfl, rfl, rfl, rfl, rfl, rfl, rfl⟩
    simp [queueVideoProcessing, h1, h2]

/-- Witness for C5 at concrete inputs: the NotFound path, the BadRequest
path, and a successful admission. -/
theorem submit_admission_checks_witness :
    (queueVideoProcessing "p0" none none "j0"
      = Except.error (ServiceError.notFound
          ("Product1688 with ID " ++ "p0" ++ " not found")))
    ∧ (queueVideoProcessing "p1" (some demoProductNoUrl) none "job1"
        = Except.error (ServiceError.badRequest "Product does not have a video URL"))
    ∧ (∃ eff : SubmitEffects,
        queueVideoProcessing "p1" (some demoProduct) none "job1" = Except.ok eff
        ∧ eff.job.status = JobStatus.QUEUED
        ∧ eff.job.progress = 0
        ∧ eff.job.id = "job1"
        ∧ eff.product = { demoProduct with videoStatus := some VideoStatus.QUEUED }
        ∧ eff.queued.name = "dub-video"
        ∧ eff.queued.opts =
            { attempts := 3, backoffType := some "exponential",
              backoffDelay := some 5000, removeOnComplete := some false,
              removeOnFail := some false }
        ∧ eff.response.status = "QUEUED"
        ∧ eff.response.estimatedTime = 300) :=
  ⟨(submit_admission_checks "p0" "j0" none).1,
   (submit_admission_checks "p1" "job1" none).2.1 demoProductNoUrl (by decide),
   (submit_admission_checks "p1" "job1" none).2.2.2 demoProduct (by decide) (by decide)⟩

/-- C6.  Retry(jobId) fails with NotFound for an unknown id, fails with
Conflict whenever the job's status is not FAILED (the exception is thrown
before any write, so nothing is mutated), and on a FAILED job resets
progress to 0, clears currentStep, startedAt, failedAt and both error
fields, increments retryCount by exactly one, sets status QUEUED, and
enqueues one `dub-video` item with `attempts: 1` — a single delivery,
zero further automatic retries. -/
theorem retry_only_failed (jobId : String) :
    retryJob jobId none
      = Except.error (ServiceError.notFound ("Job with ID " ++ jobId ++ " not found"))
    ∧ (∀ job : VideoDubbingJob, job.status ≠ JobStatus.FAILED →
        retryJob jobId (some job)
          = Except.error (ServiceError.conflict "Job is not in FAILED status"))
    ∧ (∀ job : VideoDubbingJob, job.status = JobStatus.FAILED →
        retryJob jobId (some job) = Except.ok
          { job :=
              { job with
                status := JobStatus.QUEUED
                progress := 0
                currentStep := none
                startedAt := none
                failedAt := none
                errorMessage := none
                errorStack := none
                retryCount := job.retryCount + 1 }
            queued :=
              { name := "dub-video"
                data :=
                  { jobId := job.id
                    product1688Id := job.product1688Id
                    originalVideoUrl := job.originalVideoUrl
                    options := job.options }
                opts := { attempts := 1 } }
            response :=
              { jobId := job.id
                status := "QUEUED"
                estimatedTime := 300
                message := "Job re-queued successfully" } }) := by
  refine ⟨rfl, ?_, ?_⟩
  · intro job h
    simp [retryJob, h]
  · intro job h
    simp [retryJob, h]

def demoFailedJob : VideoDubbingJob :=
  { demoJob with
    status := JobStatus.FAILED
    progress := 30
    currentStep := some "TRANSCRIBING"
    startedAt := some 100
    failedAt := some 200
    errorMessage := some "Transcription failed"
    errorStack := some "Transcription failed"
    retryCount := 3 }

/-- Witness for C6 at concrete jobs: unknown id, a QUEUED job (Conflict),
and a FAILED job (full reset, retryCount 3 → 4, single-attempt enqueue). -/
theorem retry_only_failed_witness :
    retryJob "nope" none
      = Except.error (ServiceError.notFound ("Job with ID " ++ "nope" ++ " not found"))
    ∧ retryJob "job1" (some demoJob)
        = Except.error (ServiceError.conflict "Job is not in FAILED status")
    ∧ retryJob "job1" (some demoFailedJob) = Except.ok
        { job :=
            { demoFailedJob with
              status := JobStatus.QUEUED
              progress := 0
              currentStep := none
              startedAt := none
              failedAt := none
              errorMessage := none
              errorStack := none
              retryCount := demoFailedJob.retryCount + 1 }
          queued :=
            { name := "dub-video"
              data :=
                { jobId := demoFailedJob.id
                  product1688Id := demoFailedJob.product1688Id
                  originalVideoUrl := demoFailedJob.originalVideoUrl
                  options := demoFailedJob.options }
              opts := { attempts := 1 } }
          response :=
            { jobId := demoFailedJob.id
              status := "QUEUED"
              estimatedTime := 300
              message := "Job re-queued successfully" } } :=
  ⟨(retry_only_failed "nope").1,
   (retry_only_failed "job1").2.1 demoJob (by decide),
   (retry_only_failed "job1").2.2 demoFailedJob (by decide)⟩

def demoActiveJob : VideoDubbingJob :=
  { demoJob with status := JobStatus.ENCODING_VIDEO, progress := 80 }

def demoProductWithResults : Product1688 :=
  { demoProduct with
    dubbedVideoUrl := some "https://cdn.example/videos/dubbed/1000-rnd.mp4"
    hlsPlaylistUrl := some "https://cdn.example/videos/hls/1000-rnd.m3u8"
    thumbnailUrl := some "https://cdn.example/videos/thumbnails/1001-rnd.jpg"
    videoStatus := some VideoStatus.PROCESSING }

/-- The error message the forced-FAILED write of a Cancel persists, when
one happened. -/
def cancelReason (r : Except ServiceError DeleteEffects) : Option String :=
  match r with
  | Except.ok eff =>
    (match eff.jobUpdate with
      | some jj => jj.errorMessage
      | none => none)
  | Except.error _ => none

/-- C7 counterexample.  The claim says a non-terminal job is forced to
FAILED with reason "cancelled by user"; the code persists the error
message "Job cancelled by user", not "cancelled by user". -/
theorem cancel_reason_is_full_message :
    cancelReason (deleteVideo "p1" (some demoProductWithResults)
        (some demoActiveJob) ["job1"] 999) = some "Job cancelled by user"
    ∧ cancelReason (deleteVideo "p1" (some demoProductWithResults)
        (some demoActiveJob) ["job1"] 999) ≠ some "cancelled by user" := by
  refine ⟨by decide, by decide⟩

/-- C7 (amended).  Cancel(sourceId) on an existing source never throws
past the lookup: when the latest job is non-terminal (neither COMPLETED
nor FAILED) it is forced to status FAILED with error message
"Job cancelled by user" and failed-at set to now; regardless of prior job
state, a deletion is attempted for each result artifact URL present on
the source (video, playlist, thumbnail — every present one is in the
attempted list, so one deletion's failure never prevents another: each
attempt is inside its own try/catch whose failure is only logged); and
the source's result fields are reset to empty with mirrored status
CANCELLED and cleared metadata. -/
theorem cancel_behavior (pid : String) (prod : Product1688)
    (latestJob : Option VideoDubbingJob) (qids : List String) (now : Nat) :
    ∃ eff : DeleteEffects,
      deleteVideo pid (some prod) latestJob qids now = Except.ok eff
      ∧ (∀ aj : VideoDubbingJob, latestJob = some aj →
          aj.status ≠ JobStatus.COMPLETED → aj.status ≠ JobStatus.FAILED →
          eff.jobUpdate = some { aj with
            status := JobStatus.FAILED
            errorMessage := some "Job cancelled by user"
            failedAt := some now })
      ∧ (∀ u : String, prod.dubbedVideoUrl = some u → u ≠ "" →
          extractS3Key u ∈ eff.deleteAttempts)
      ∧ (∀ u : String, prod.hlsPlaylistUrl = some u → u ≠ "" →
          extractS3Key u ∈ eff.deleteAttempts)
      ∧ (∀ u : String, prod.thumbnailUrl = some u → u ≠ "" →
          extractS3Key u ∈ eff.deleteAttempts)
      ∧ eff.product = { prod with
          dubbedVideoUrl := none
          hlsPlaylistUrl := none
          thumbnailUrl := none
          videoStatus := some VideoStatus.CANCELLED
          videoMeta := none } := by
  refine ⟨_, rfl, ?_, ?_, ?_, ?_, rfl⟩
  · intro aj haj h1 h2
    subst haj
    simp [h1, h2]
  · intro u hu hne
    simp [deleteVideo, hu, hne]
  · intro u hu hne
    simp [deleteVideo, hu, hne]
  · intro u hu hne
    simp [deleteVideo, hu, hne]

/-- Witness for C7 at a concrete cancel of an ENCODING_VIDEO job on a
source holding all three artifacts. -/
theorem cancel_behavior_witness :
    ∃ eff : DeleteEffects,
      deleteVideo "p1" (some demoProductWithResults)
          (some demoActiveJob) ["job1"] 999 = Except.ok eff
      ∧ eff.jobUpdate = some { demoActiveJob with
          status := JobStatus.FAILED
          errorMessage := some "Job cancelled by user"
          failedAt := some 999 }
      ∧ extractS3Key "https://cdn.example/videos/dubbed/1000-rnd.mp4"
          ∈ eff.deleteAttempts
      ∧ extractS3Key "https://cdn.example/videos/hls/1000-rnd.m3u8"
          ∈ eff.deleteAttempts
      ∧ extractS3Key "https://cdn.example/videos/thumbnails/1001-rnd.jpg"
          ∈ eff.deleteAttempts
      ∧ eff.product = { demoProductWithResults with
          dubbedVideoUrl := none
          hlsPlaylistUrl := none
          thumbnailUrl := none
          videoStatus := some VideoStatus.CANCELLED
          videoMeta := none } := by
  obtain ⟨eff, h1, h2, h3, h4, h5, h6⟩ :=
    cancel_behavior "p1" demoProductWithResults (some demoActiveJob) ["job1"] 999
  exact ⟨eff, h1,
    h2 demoActiveJob rfl (by decide) (by decide),
    h3 _ rfl (by decide), h4 _ rfl (by decide), h5 _ rfl (by decide), h6⟩

/-- C10.  Cancel(sourceId) raises NotFound only when the source entity is
absent; when the source exists but has no job history the operation
succeeds, performs no job write and no queue removal, and still clears
the source's result fields and sets the mirrored status to CANCELLED. -/
theorem cancel_without_job_history (pid : String) (qids : List String) (now : Nat) :
    deleteVideo pid none none qids now
      = Except.error (ServiceError.notFound
          ("Product1688 with ID " ++ pid ++ " not found"))
    ∧ (∀ prod : Product1688, ∃ eff : DeleteEffects,
        deleteVideo pid (some prod) none qids now = Except.ok eff
        ∧ eff.jobUpdate = none
        ∧ eff.removedFromQueue = []
        ∧ eff.product = { prod with
            dubbedVideoUrl := none
            hlsPlaylistUrl := none
            thumbnailUrl := none
            videoStatus := some VideoStatus.CANCELLED
            videoMeta := none }) := by
  refine ⟨rfl, ?_⟩
  intro prod
  exact ⟨_, rfl, rfl, rfl, rfl⟩

/-- Witness for C10: missing source, and a source with no job history. -/
theorem cancel_without_job_history_witness :
    deleteVideo "p0" none none [] 0
      = Except.error (ServiceError.notFound
          ("Product1688 with ID " ++ "p0" ++ " not found"))
    ∧ (∃ eff : DeleteEffects,
        deleteVideo "p1" (some demoProduct) none [] 0 = Except.ok eff
        ∧ eff.jobUpdate = none
        ∧ eff.removedFromQueue = []
        ∧ eff.product = { demoProduct with
            dubbedVideoUrl := none
            hlsPlaylistUrl := none
            thumbnailUrl := none
            videoStatus := some VideoStatus.CANCELLED
            videoMeta := none }) :=
  ⟨(cancel_without_job_history "p0" [] 0).1,
   (cancel_without_job_history "p1" [] 0).2 demoProduct⟩

theorem jobInv_of_incomplete (jb : VideoDubbingJob)
    (h1 : jb.status ≠ JobStatus.COMPLETED) (h2 : jb.progress ≠ 100)
    (h3 : strTruthy jb.dubbedVideoUrl = false) : jobInv jb :=
  ⟨iff_of_false h1 h2, iff_of_false h1 (by simp [h3])⟩

theorem jobInv_url_falsy (jb : VideoDubbingJob) (hinv : jobInv jb)
    (h : jb.status ≠ JobStatus.COMPLETED) :
    strTruthy jb.dubbedVideoUrl = false := by
  cases hb : strTruthy jb.dubbedVideoUrl
  · rfl
  · exact absurd (hinv.2.mpr hb) h

/-- C2.  Every reachable job record satisfies the three-way equivalence
status == COMPLETED ⇔ progress == 100 ⇔ dubbed video URL non-empty, and
every operation that writes these fields — the admission write, a whole
queue delivery (checkpoint updates, failure handling and the completion
write), a manual retry, and cancellation's forced-FAILED write — maps a
record satisfying it to a record satisfying it (concurrent interleavings
are modelled as atomic deliveries; a completed record is never delivered
again, since BullMQ does not redeliver completed work items). -/
theorem reachable_job_invariant :
    ∀ jb : VideoDubbingJob, ReachableJob jb → jobInv jb := by
  intro jb h
  induction h with
  | submitted pid product? opts jid eff heq =>
    cases product? with
    | none => simp [queueVideoProcessing] at heq
    | some prod =>
      by_cases h1 : strTruthy prod.originalVideoUrl = false
      · simp [queueVideoProcessing, h1] at heq
      · by_cases h2 : prod.videoStatus = some VideoStatus.PROCESSING
            ∨ prod.videoStatus = some VideoStatus.QUEUED
        · simp [queueVideoProcessing, h1, h2] at heq
        · simp [queueVideoProcessing, h1, h2] at heq
          subst heq
          exact jobInv_of_incomplete _ (by simp) (by simp) (by simp [strTruthy])
  | delivered env data j0 p0 hre hstat ih =>
    rcases (process_shape env data j0 p0).2 with ⟨h1, h2, h3⟩ | ⟨h1, h2, h3⟩
    · exact ⟨⟨fun _ => h2, fun _ => h1⟩, ⟨fun _ => h3, fun _ => h1⟩⟩
    · exact jobInv_of_incomplete _ h1 h2
        (by rw [h3]; exact jobInv_url_falsy j0 ih hstat)
  | retried jid j0 eff hre heq ih =>
    by_cases hs : j0.status = JobStatus.FAILED
    · simp [retryJob, hs] at heq
      subst heq
      exact jobInv_of_incomplete _ (by simp) (by simp)
        (by simpa using jobInv_url_falsy j0 ih (by simp [hs]))
    · simp [retryJob, hs] at heq
  | cancelled pid product? qids now j0 j' eff hre heq hjob ih =>
    cases product? with
    | none => simp [deleteVideo] at heq
    | some prod =>
      simp [deleteVideo] at heq
      subst heq
      by_cases hact : j0.status ≠ JobStatus.COMPLETED ∧ j0.status ≠ JobStatus.FAILED
      · simp [hact] at hjob
        subst hjob
        have hpr : j0.progress ≠ 100 := fun hcon => hact.1 (ih.1.mpr hcon)
        exact jobInv_of_incomplete _ (by simp)
          (by simpa using hpr)
          (by simpa using jobInv_url_falsy j0 ih hact.1)
      · simp [hact] at hjob

/-- Witness for C2: the record a concrete successful Submit creates is
reachable and satisfies the invariant. -/
theorem reachable_job_invariant_witness : jobInv demoJob :=
  reachable_job_invariant demoJob
    (ReachableJob.submitted "p1" (some demoProduct) none "job1" demoSubmitEffects
      (by decide))

end Ecomate
